import Mathlib

/-!
Shallow embedding of the task orchestration engine of `team/orchestrator.py`:
output-contract extraction and validation, the task graph model (pipelines,
debates, readiness, deferral), status aggregation, crash recovery, and the
dispatch engine model-chain loop.  Wall-clock reads are passed as explicit
`now` parameters (epoch seconds); ISO-8601 timestamp serialization and
parsing, which live in the Python datetime library, are passed as abstract
codec functions.  File writes and the append-only event log are pure I/O in
the source; the embedding keeps the path values and field updates they
produce and drops the writes themselves.
-/

namespace Orch

/-- The opening brace character. -/
def lbrace : Char := Char.ofNat 123

/-- The closing brace character. -/
def rbrace : Char := Char.ofNat 125

/-- ASCII lower-casing of one character, modelling Python str.lower on the
ASCII inputs the orchestrator deals with. -/
def pyToLower (c : Char) : Char :=
  if 65 ≤ c.toNat && c.toNat ≤ 90 then Char.ofNat (c.toNat + 32) else c

/-- Python str.lower (ASCII fragment). -/
def lowerStr (s : String) : String := String.mk (s.data.map pyToLower)

/-- Whitespace characters removed by Python str.strip. -/
def isPySpace (c : Char) : Bool :=
  c = ' ' || c = '\t' || c = '\n' || c = '\r' || c = Char.ofNat 11 || c = Char.ofNat 12

/-- Strip leading and trailing whitespace from a character list. -/
def trimCL (cs : List Char) : List Char :=
  ((cs.dropWhile isPySpace).reverse.dropWhile isPySpace).reverse

/-- Python str.strip(). -/
def pyStrip (s : String) : String := String.mk (trimCL s.data)

/-- Substring occurrence test on character lists. -/
def containsSub (hay needle : List Char) : Bool :=
  (List.range (hay.length + 1)).any fun i => needle.isPrefixOf (hay.drop i)

/-- Python substring membership, the expression `needle in hay`. -/
def strContains (hay needle : String) : Bool := containsSub hay.data needle.data

/-- Python str.find(needle, start): index of the first occurrence at or after
`start`, none when absent. -/
def findFromCL (hay needle : List Char) (start : Nat) : Option Nat :=
  (List.range (hay.length + 1)).find? fun i =>
    decide (start ≤ i) && needle.isPrefixOf (hay.drop i)

/-- Python str.rfind(needle): index of the last occurrence, none when absent. -/
def rfindCL (hay needle : List Char) : Option Nat :=
  ((List.range (hay.length + 1)).filter fun i => needle.isPrefixOf (hay.drop i)).getLast?

/-- Decimal digit test. -/
def isDigitCh (c : Char) : Bool := 48 ≤ c.toNat && c.toNat ≤ 57

/-- Numeric value of a list of decimal digits. -/
def digitsToNat (ds : List Char) : Nat := ds.foldl (fun acc c => acc * 10 + (c.toNat - 48)) 0

/-- Python int() on a string of plain decimal digits; none when the string is
empty or holds a non-digit (where Python would raise ValueError). -/
def parseNatCL (cs : List Char) : Option Nat :=
  if !cs.isEmpty && cs.all isDigitCh then some (digitsToNat cs) else none

/-- Python str.split(sep) for a one-character separator. -/
def splitChar (sep : Char) : List Char → List (List Char)
  | [] => [[]]
  | c :: rest =>
    match splitChar sep rest with
    | [] => [[]]
    | g :: gs => if c = sep then [] :: g :: gs else (c :: g) :: gs

/-- JSON values as produced by json.loads: the orchestrator threads parsed
contracts around as such dynamically-typed values. -/
inductive JVal where
  | null
  | bool (b : Bool)
  | num (n : Int)
  | str (s : String)
  | arr (items : List JVal)
  | obj (fields : List (String × JVal))

/-- A parsed contract object: the field list of a JSON object (a Python dict);
lookups take the last binding, as dict construction from duplicate keys would. -/
abbrev Ctr := List (String × JVal)

mutual

/-- Python repr() of a parsed JSON value (ASCII fragment). -/
def pyRepr : JVal → String
  | .null => "None"
  | .bool b => if b then "True" else "False"
  | .num n => toString n
  | .str s => "\x27" ++ s ++ "\x27"
  | .arr items => "[" ++ pyReprList items ++ "]"
  | .obj fields => "\x7b" ++ pyReprFields fields ++ "\x7d"

/-- Comma-joined reprs of list elements. -/
def pyReprList : List JVal → String
  | [] => ""
  | [v] => pyRepr v
  | v :: rest => pyRepr v ++ ", " ++ pyReprList rest

/-- Comma-joined reprs of dict entries. -/
def pyReprFields : List (String × JVal) → String
  | [] => ""
  | [kv] => "\x27" ++ kv.1 ++ "\x27: " ++ pyRepr kv.2
  | kv :: rest => "\x27" ++ kv.1 ++ "\x27: " ++ pyRepr kv.2 ++ ", " ++ pyReprFields rest

end

/-- Python str() of a parsed JSON value: identity on strings, repr-like
rendering elsewhere. -/
def pyStr : JVal → String
  | .str s => s
  | v => pyRepr v

/-- Key presence in a parsed JSON object, the Python expression `key in d`. -/
def jHasKeyB (fields : Ctr) (key : String) : Bool := fields.any fun kv => kv.1 == key

/-- Dict lookup, last binding wins. -/
def jGet (fields : Ctr) (key : String) : Option JVal :=
  ((fields.filter fun kv => kv.1 == key).map Prod.snd).getLast?

/-- Dict lookup with a default, Python d.get(key, dflt). -/
def jGetD (fields : Ctr) (key : String) (dflt : JVal) : JVal := (jGet fields key).getD dflt

/-- Skip JSON whitespace. -/
def skipWsCL : List Char → List Char
  | c :: rest => if c = ' ' || c = '\t' || c = '\n' || c = '\r' then skipWsCL rest else c :: rest
  | [] => []

/-- Parse the body of a JSON string after the opening quote, handling the
common escapes; yields the content and the remainder after the closing quote. -/
def parseStringBody : Nat → List Char → Option (List Char × List Char)
  | 0, _ => none
  | _ + 1, [] => none
  | fuel + 1, c :: rest =>
    if c = '"' then some ([], rest)
    else if c = '\\' then
      match rest with
      | [] => none
      | e :: rest2 =>
        let dec : Option Char :=
          if e = '"' then some '"'
          else if e = '\\' then some '\\'
          else if e = '/' then some '/'
          else if e = 'n' then some '\n'
          else if e = 't' then some '\t'
          else if e = 'r' then some '\r'
          else none
        match dec with
        | some ch => (parseStringBody fuel rest2).map fun p => (ch :: p.1, p.2)
        | none => none
    else (parseStringBody fuel rest).map fun p => (c :: p.1, p.2)

/-- Take the leading run of decimal digits. -/
def takeDigitsCL : List Char → (List Char × List Char)
  | [] => ([], [])
  | c :: rest =>
    if isDigitCh c then
      match takeDigitsCL rest with
      | (ds, r) => (c :: ds, r)
    else ([], c :: rest)

/-- Parse a JSON integer token (the orchestrator contracts use no floats). -/
def parseNumTok (cs : List Char) : Option (JVal × List Char) :=
  match cs with
  | [] => none
  | c :: rest =>
    if c = '-' then
      match takeDigitsCL rest with
      | ([], _) => none
      | (ds, r) => some (.num (-(digitsToNat ds : Int)), r)
    else
      match takeDigitsCL (c :: rest) with
      | ([], _) => none
      | (ds, r) => some (.num ((digitsToNat ds : Int)), r)

mutual

/-- Parse one JSON value, fuel-bounded; models json.loads on the fragment of
JSON the orchestrator produces and consumes. -/
def parseJson : Nat → List Char → Option (JVal × List Char)
  | 0, _ => none
  | fuel + 1, cs =>
    match skipWsCL cs with
    | [] => none
    | c :: rest =>
      if c = '"' then (parseStringBody (fuel + 1) rest).map fun p => (.str (String.mk p.1), p.2)
      else if c = lbrace then
        match skipWsCL rest with
        | c2 :: rest2 => if c2 = rbrace then some (.obj [], rest2)
                         else (parseMembers fuel rest).map fun p => (.obj p.1, p.2)
        | [] => none
      else if c = '[' then
        match skipWsCL rest with
        | c2 :: rest2 => if c2 = ']' then some (.arr [], rest2)
                         else (parseItems fuel rest).map fun p => (.arr p.1, p.2)
        | [] => none
      else if c = 't' then
        if ['r', 'u', 'e'].isPrefixOf rest then some (.bool true, rest.drop 3) else none
      else if c = 'f' then
        if ['a', 'l', 's', 'e'].isPrefixOf rest then some (.bool false, rest.drop 4) else none
      else if c = 'n' then
        if ['u', 'l', 'l'].isPrefixOf rest then some (.null, rest.drop 3) else none
      else parseNumTok (c :: rest)

/-- Parse one or more `"key": value` members and the closing brace. -/
def parseMembers : Nat → List Char → Option (Ctr × List Char)
  | 0, _ => none
  | fuel + 1, cs =>
    match skipWsCL cs with
    | [] => none
    | c :: rest =>
      if c = '"' then
        match parseStringBody (fuel + 1) rest with
        | none => none
        | some (k, r1) =>
          match skipWsCL r1 with
          | [] => none
          | c2 :: r2 =>
            if c2 = ':' then
              match parseJson fuel r2 with
              | none => none
              | some (v, r3) =>
                match skipWsCL r3 with
                | [] => none
                | c3 :: r4 =>
                  if c3 = ',' then (parseMembers fuel r4).map fun p => ((String.mk k, v) :: p.1, p.2)
                  else if c3 = rbrace then some ([(String.mk k, v)], r4)
                  else none
            else none
      else none

/-- Parse one or more array items and the closing bracket. -/
def parseItems : Nat → List Char → Option (List JVal × List Char)
  | 0, _ => none
  | fuel + 1, cs =>
    match parseJson fuel cs with
    | none => none
    | some (v, r1) =>
      match skipWsCL r1 with
      | [] => none
      | c2 :: r2 =>
        if c2 = ',' then (parseItems fuel r2).map fun p => (v :: p.1, p.2)
        else if c2 = ']' then some ([v], r2)
        else none

end

/-- Model of json.loads: a whole-input parse that rejects trailing data, as
json.loads raises on extra data; none on any error. -/
def jsonParse (s : String) : Option JVal :=
  match parseJson (2 * s.data.length + 2) s.data with
  | some (v, rest) => if (skipWsCL rest).isEmpty then some v else none
  | none => none

/-- Embedding of _extract_json_from_fenced_block: locate the last case
insensitive occurrence of the json fence marker, take the text between the
following newline and the next closing fence, strip it, and parse it,
requiring an object. -/
def extract_json_from_fenced_block (text : String) : Option Ctr :=
  let cs := text.data
  let lowerText := cs.map pyToLower
  let lowerMarker := "```json".data.map pyToLower
  match rfindCL lowerText lowerMarker with
  | none => none
  | some start =>
    match findFromCL cs "\n".data start with
    | none => none
    | some nl =>
      let blockStart := nl + 1
      match findFromCL cs "```".data blockStart with
      | none => none
      | some stop =>
        let candidate := trimCL ((cs.drop blockStart).take (stop - blockStart))
        if candidate.isEmpty then none
        else
          match jsonParse (String.mk candidate) with
          | some (.obj fields) => some fields
          | _ => none

/-- The fallback branch of extract_output_contract: slice the text from the
last opening brace through the last closing brace (requiring the former to
come strictly first), strip, parse, and require an object. -/
def extract_contract_fallback (text : String) : Option Ctr :=
  let cs := text.data
  match rfindCL cs [lbrace], rfindCL cs [rbrace] with
  | some start, some stop =>
    if stop ≤ start then none
    else
      let candidate := trimCL ((cs.drop start).take (stop + 1 - start))
      match jsonParse (String.mk candidate) with
      | some (.obj fields) => some fields
      | _ => none
  | some _, none => none
  | none, _ => none

/-- Embedding of extract_output_contract: a fenced-block result that is truthy
(a non-empty dict) wins, otherwise the brace-slice fallback runs. -/
def extract_output_contract (text : String) : Option Ctr :=
  match extract_json_from_fenced_block text with
  | some fields => if fields.isEmpty then extract_contract_fallback text else some fields
  | none => extract_contract_fallback text

/-- The required contract footer fields checked by the presence loop. -/
def OUTPUT_CONTRACT_REQUIRED_FIELDS : List String :=
  ["task_id", "owner", "acceptance_criteria", "artifacts"]

/-- The allowed values of the contract status field. -/
def OUTPUT_CONTRACT_ALLOWED_STATUS : List String :=
  ["done", "needs_review", "needs_changes", "blocked", "needs_fix_format",
   "ready_for_handoff", "dispatched", "approved_or_changes_requested", "passed_or_failed"]

/-- Static per-role table of required artifact paths. -/
def ROLE_REQUIRED_ARTIFACT_PATHS : List (String × List String) :=
  [("concept", ["docs/concept.md"]),
   ("game_design", ["docs/game_design.md", "docs/balance_knobs.md"]),
   ("narrative", ["docs/narrative.md", "assets/text/ui_copy.md"]),
   ("player_experience", ["docs/ux_flow.md", "docs/ftue.md"])]

/-- Paths contributed by one artifact entry: a bare string, a dict path, or a
dict value (string or list of strings), each stripped. -/
def artifactEntryPaths (artifact : JVal) : List String :=
  match artifact with
  | .str s => [pyStrip s]
  | .obj fields =>
    match jGet fields "path" with
    | some (.str p) => [pyStrip p]
    | _ =>
      match jGet fields "value" with
      | some (.str v) => [pyStrip v]
      | some (.arr items) =>
        items.filterMap fun it => match it with | .str s => some (pyStrip s) | _ => none
      | _ => []
  | _ => []

/-- Embedding of _artifact_paths_from_contract: flatten the artifact list to
stripped path strings, dropping empties. -/
def artifact_paths_from_contract (contract : Ctr) : List String :=
  match jGet contract "artifacts" with
  | some (.arr artifacts) => ((artifacts.map artifactEntryPaths).flatten).filter fun p => p ≠ ""
  | _ => []

/-- Violations of one next_role_action_items entry at a 1-based index. -/
def next_action_item_errors (idx : Nat) (item : JVal) : List String :=
  match item with
  | .obj fields =>
    (match jGet fields "role" with
     | some (.str r) =>
       if pyStrip r = "" then
         ["next_role_action_items[" ++ toString idx ++ "].role must be a non-empty string"]
       else []
     | _ => ["next_role_action_items[" ++ toString idx ++ "].role must be a non-empty string"])
    ++
    (match jGet fields "items" with
     | some (.arr items) =>
       if items.isEmpty then
         ["next_role_action_items[" ++ toString idx ++ "].items must be a non-empty list"]
       else if items.all (fun it => match it with | .str s => pyStrip s ≠ "" | _ => false) then []
       else ["next_role_action_items[" ++ toString idx ++ "].items must contain non-empty strings"]
     | _ => ["next_role_action_items[" ++ toString idx ++ "].items must be a non-empty list"])
  | _ => ["next_role_action_items[" ++ toString idx ++ "] must be an object"]

/-- The enumerate(next_actions, start=1) loop of validate_output_contract. -/
def next_action_items_errors : Nat → List JVal → List String
  | _, [] => []
  | idx, item :: rest => next_action_item_errors idx item ++ next_action_items_errors (idx + 1) rest

/-- Role-specific required artifact path checks; trailing-slash entries match
as prefixes. -/
def required_path_errors (role : String) (contract : Ctr) : List String :=
  let required := (ROLE_REQUIRED_ARTIFACT_PATHS.lookup role).getD []
  if required.isEmpty then []
  else
    let paths := artifact_paths_from_contract contract
    required.filterMap fun rp =>
      if rp.endsWith "/" then
        if paths.any (fun p => rp.isPrefixOf p) then none
        else some ("Missing required artifact path prefix: " ++ rp)
      else
        if paths.contains rp then none
        else some ("Missing required artifact path: " ++ rp)

/-- A model-chain entry, a backend and model pair. -/
structure ModelEntry where
  backend : String
  model : String

/-- The metadata map of a task, with the keys the orchestrator reads and
writes as named optional fields. -/
structure TaskMeta where
  depends_on_task_ids : Option (List String) := none
  pipeline_id : Option String := none
  debate_id : Option String := none
  stage_index : Option Nat := none
  stage_count : Option Nat := none
  debate_stage : Option String := none
  retry_at : Option String := none
  attempted_models : Option (List ModelEntry) := none
  quota_exhausted_models : Option (List ModelEntry) := none
  output_contract : Option Ctr := none
  compression_path : Option String := none
  runner_backend : Option String := none
  runner_model : Option String := none

/-- A task record; timestamps are epoch seconds except retry_at, which the
source stores as an ISO string inside metadata and parses back. -/
structure Task where
  id : String
  role : String
  title : String
  description : String
  status : String
  created_at : Int
  updated_at : Int
  started_at : Option Int := none
  finished_at : Option Int := none
  session_id : Option String := none
  output_path : Option String := none
  error : Option String := none
  metadata : TaskMeta := {}

/-- The required-field presence loop of validate_output_contract. -/
def missing_field_errors (c : Ctr) : List String :=
  (OUTPUT_CONTRACT_REQUIRED_FIELDS.filter fun f => !(jHasKeyB c f)).map
    fun f => "Missing required field: " ++ f

/-- The task_id consistency check: a truthy task_id must equal the task id. -/
def task_id_errors (task : Task) (c : Ctr) : List String :=
  let tid := pyStr (jGetD c "task_id" (.str ""))
  if tid ≠ "" && tid ≠ task.id then
    ["task_id mismatch: expected " ++ task.id ++ ", got " ++ tid]
  else []

/-- The owner consistency check: a truthy owner must equal the role. -/
def owner_errors (role : String) (c : Ctr) : List String :=
  let owner := pyStr (jGetD c "owner" (.str ""))
  if owner ≠ "" && owner ≠ role then
    ["owner mismatch: expected " ++ role ++ ", got " ++ owner]
  else []

/-- The status enumeration check; an absent status defaults to done. -/
def status_errors (c : Ctr) : List String :=
  let status := pyStrip (pyStr (jGetD c "status" (.str "done")))
  if status ≠ "" && !(OUTPUT_CONTRACT_ALLOWED_STATUS.contains status) then
    ["Invalid status: " ++ status]
  else []

/-- The non-empty-list check shared by artifacts, acceptance_criteria and
handoff_to. -/
def list_field_errors (c : Ctr) (key : String) : List String :=
  match jGet c key with
  | some (.arr items) => if items.isEmpty then [key ++ " must be a non-empty list"] else []
  | _ => [key ++ " must be a non-empty list"]

/-- The next_role_action_items check: a non-empty list whose entries are
validated item by item. -/
def next_field_errors (c : Ctr) : List String :=
  match jGet c "next_role_action_items" with
  | some (.arr items) =>
    if items.isEmpty then ["next_role_action_items must be a non-empty list"]
    else next_action_items_errors 1 items
  | _ => ["next_role_action_items must be a non-empty list"]

/-- Embedding of validate_output_contract: a falsy (absent or empty) contract
is one violation; otherwise the checks run in source order and their error
lists concatenate. -/
def validate_output_contract (role : String) (task : Task) (contract : Option Ctr) : List String :=
  match contract with
  | none => ["Missing JSON output contract footer."]
  | some c =>
    if c.isEmpty then ["Missing JSON output contract footer."]
    else
      missing_field_errors c ++ task_id_errors task c ++ owner_errors role c ++ status_errors c
        ++ list_field_errors c "artifacts" ++ list_field_errors c "acceptance_criteria"
        ++ list_field_errors c "handoff_to" ++ next_field_errors c
        ++ required_path_errors role c

/-- The four required markdown report sections and their accepted heading
alternatives. -/
def REQUIRED_REPORT_SECTION_ALTERNATIVES : List (String × List String) :=
  [("task meta", ["## task meta", "### task meta", "### task status summary"]),
   ("acceptance criteria", ["## acceptance criteria", "### acceptance criteria"]),
   ("artifacts", ["## artifacts", "### artifacts", "### required artifacts"]),
   ("handoff", ["## handoff", "### handoff", "### handoff instructions"])]

/-- Embedding of validate_report_structure: each section must match one of its
heading alternatives case-insensitively. -/
def validate_report_structure (message : String) : List String :=
  let lowerMessage := lowerStr message
  REQUIRED_REPORT_SECTION_ALTERNATIVES.filterMap fun la =>
    if la.2.any (fun alt => strContains lowerMessage alt) then none
    else some ("Missing report section: " ++ la.1)

/-- Embedding of validate_task_output: contract violations then report
structure violations. -/
def validate_task_output (role : String) (task : Task) (message : String)
    (contract : Option Ctr) : List String :=
  validate_output_contract role task contract ++ validate_report_structure message

/-- Per-role runtime record. -/
structure RoleState where
  session_id : Option String := none
  session_backend : Option String := none
  session_model : Option String := none
  state : String := "idle"
  last_active_at : Option Int := none
  tasks_completed : Int := 0

/-- A pipeline record. -/
structure Pipeline where
  id : String
  title : String
  brief : String
  roles : List String
  task_ids : List String
  status : String
  created_at : Int
  updated_at : Int
  last_error : Option String := none

/-- A debate record. -/
structure Debate where
  id : String
  title : String
  topic : String
  roles : List String
  moderator : String
  participant_task_ids : List String
  moderator_task_id : String
  task_ids : List String
  status : String
  created_at : Int
  updated_at : Int
  last_error : Option String := none

/-- The state document root, with the collections the task graph reads. -/
structure RuntimeState where
  status : String := "stopped"
  roles : List (String × RoleState) := []
  tasks : List Task := []
  pipelines : List Pipeline := []
  debates : List Debate := []

/-- Embedding of parse_iso_datetime over an abstract ISO-8601 reader fromIso
standing for datetime.fromisoformat: a falsy (empty) value is none, a parse
failure is none; normalization to UTC lives inside fromIso. -/
def parse_iso_datetime (fromIso : String → Option Int) (value : String) : Option Int :=
  if value = "" then none else fromIso value

/-- Embedding of is_task_deferred at wall-clock time now: true iff
metadata.retry_at parses to a strictly future timestamp. -/
def is_task_deferred (fromIso : String → Option Int) (now : Int) (task : Task) : Bool :=
  match parse_iso_datetime fromIso (pyStrip (task.metadata.retry_at.getD "")) with
  | none => false
  | some retryAt => decide (now < retryAt)

/-- Embedding of set_task_retry over the abstract ISO writer toIso: stamp
metadata.retry_at at now plus max(defer_minutes, 1) minutes, re-queue the
task, clear the run timestamps and record the reason. -/
def set_task_retry (toIso : Int → String) (now : Int) (task : Task) (defer_minutes : Int)
    (reason : String) : Task :=
  { task with
    metadata := { task.metadata with retry_at := some (toIso (now + 60 * max defer_minutes 1)) }
    status := "queued"
    updated_at := now
    started_at := none
    finished_at := none
    error := some reason }

/-- Embedding of get_task: first task with the given id. -/
def get_task (state : RuntimeState) (task_id : String) : Option Task :=
  state.tasks.find? fun t => t.id == task_id

/-- Embedding of get_pipeline. -/
def get_pipeline (state : RuntimeState) (pipeline_id : String) : Option Pipeline :=
  state.pipelines.find? fun p => p.id == pipeline_id

/-- Embedding of get_debate. -/
def get_debate (state : RuntimeState) (debate_id : String) : Option Debate :=
  state.debates.find? fun d => d.id == debate_id

/-- Embedding of task_dependencies: the depends_on_task_ids metadata list, or
empty when absent or not a list. -/
def task_dependencies (task : Task) : List String :=
  (task.metadata.depends_on_task_ids).getD []

/-- Embedding of is_task_ready: every dependency exists and is done. -/
def is_task_ready (state : RuntimeState) (task : Task) : Bool :=
  (task_dependencies task).all fun dep =>
    match get_task state dep with
    | some depTask => depTask.status == "done"
    | none => false

/-- Embedding of next_queued_task: the first queued, non-deferred, ready task
in list order. -/
def next_queued_task (fromIso : String → Option Int) (now : Int) (state : RuntimeState) :
    Option Task :=
  state.tasks.find? fun task =>
    task.status == "queued" && !is_task_deferred fromIso now task && is_task_ready state task

/-- Embedding of queued_but_blocked: every queued task that is deferred or not
ready. -/
def queued_but_blocked (fromIso : String → Option Int) (now : Int) (state : RuntimeState) :
    List Task :=
  state.tasks.filter fun task =>
    task.status == "queued" && (is_task_deferred fromIso now task || !is_task_ready state task)

/-- Numeric suffix of an id of the form PREFIX-NNNN, 0 where Python int()
would raise on a malformed id. -/
def idSuffixNum (tid : String) : Nat :=
  (((splitChar '-' tid.data).get? 1).bind parseNatCL).getD 0

/-- Printf %04d. -/
def fmt4 (n : Nat) : String :=
  let s := toString n
  String.mk (List.replicate (4 - s.length) '0') ++ s

/-- Embedding of next_task_id: max existing numeric suffix plus one. -/
def next_task_id (state : RuntimeState) : String :=
  if state.tasks.isEmpty then "TASK-0001"
  else "TASK-" ++ fmt4 ((state.tasks.map fun t => idSuffixNum t.id).foldl max 0 + 1)

/-- Embedding of next_pipeline_id. -/
def next_pipeline_id (state : RuntimeState) : String :=
  if state.pipelines.isEmpty then "PIPE-0001"
  else "PIPE-" ++ fmt4 ((state.pipelines.map fun p => idSuffixNum p.id).foldl max 0 + 1)

/-- Embedding of next_debate_id. -/
def next_debate_id (state : RuntimeState) : String :=
  if state.debates.isEmpty then "DEBATE-0001"
  else "DEBATE-" ++ fmt4 ((state.debates.map fun d => idSuffixNum d.id).foldl max 0 + 1)

/-- Embedding of ensure_role: create a default role record on first
reference. -/
def ensure_role (state : RuntimeState) (role : String) : RuntimeState :=
  if state.roles.any (fun rr => rr.1 == role) then state
  else { state with roles := state.roles ++ [(role, {})] }

/-- Embedding of enqueue_task; the task-enqueued event append is I/O and is
dropped. -/
def enqueue_task (state : RuntimeState) (role title description : String) (metadata : TaskMeta)
    (now : Int) : Task × RuntimeState :=
  let st := ensure_role state role
  let task : Task :=
    { id := next_task_id st
      role := role
      title := pyStrip title
      description := pyStrip description
      status := "queued"
      created_at := now
      updated_at := now
      metadata := metadata }
  (task, { st with tasks := st.tasks ++ [task] })

/-- The synthesized description of pipeline stage index/total for a role. -/
def pipeline_stage_description (pipeline_id : String) (index total : Nat) (role brief : String)
    (stage_template : String) : String :=
  let base :=
    "Pipeline ID: " ++ pipeline_id ++ "\n" ++
    "Stage: " ++ toString index ++ "/" ++ toString total ++ "\n" ++
    "Role: " ++ role ++ "\n" ++
    "Project brief:\n" ++ brief ++ "\n\n" ++
    "Execution notes:\n" ++
    "- Keep output concise and artifact-based.\n" ++
    "- Read handoff context from previous stage outputs if available.\n" ++
    "- Include risks and next handoff in final report.\n" ++
    "- Follow output contract schema at team/config/output_contract.schema.json.\n"
  if stage_template ≠ "" then base ++ "\nStage template:\n" ++ stage_template ++ "\n" else base

/-- The enqueue performed for one pipeline stage: the stage title, the stage
description and the stage metadata with the running depends_on list. -/
def pipeline_stage_enqueue (stageTemplate : String → String) (pipeline_id title brief : String)
    (total : Nat) (now : Int) (role : String) (index : Nat) (depends_on : List String)
    (st : RuntimeState) : Task × RuntimeState :=
  enqueue_task st role ("[" ++ pipeline_id ++ "] " ++ title ++ " :: " ++ role)
    (pipeline_stage_description pipeline_id index total role brief (stageTemplate role))
    { pipeline_id := some pipeline_id
      stage_index := some index
      stage_count := some total
      depends_on_task_ids := some depends_on } now

/-- The per-stage loop of create_pipeline, threading the state, the running
depends_on list and the accumulated task ids; stageTemplate abstracts the
template file lookup, which is configuration loading outside the engine. -/
def pipeline_stage_loop (stageTemplate : String → String) (pipeline_id title brief : String)
    (total : Nat) (now : Int) :
    List String → Nat → List String → List String → RuntimeState → List String × RuntimeState
  | [], _, _, task_ids, st => (task_ids, st)
  | role :: rest, index, depends_on, task_ids, st =>
    let ts := pipeline_stage_enqueue stageTemplate pipeline_id title brief total now
      role index depends_on st
    pipeline_stage_loop stageTemplate pipeline_id title brief total now rest (index + 1)
      [ts.1.id] (task_ids ++ [ts.1.id]) ts.2

/-- Embedding of create_pipeline: one task per role in order, a strict linear
dependency chain, then the pipeline record appended. -/
def create_pipeline (stageTemplate : String → String) (state : RuntimeState)
    (title brief : String) (roles : List String) (now : Int) : Pipeline × RuntimeState :=
  let pipeline_id := next_pipeline_id state
  let r := pipeline_stage_loop stageTemplate pipeline_id title brief roles.length now
    roles 1 [] [] state
  let pipeline : Pipeline :=
    { id := pipeline_id, title := pyStrip title, brief := pyStrip brief, roles := roles,
      task_ids := r.1, status := "queued", created_at := now, updated_at := now }
  (pipeline, { r.2 with pipelines := r.2.pipelines ++ [pipeline] })

/-- The synthesized description of a debate position task. -/
def debate_position_description (debate_id role topic : String) : String :=
  "Debate ID: " ++ debate_id ++ "\n" ++
  "Role: " ++ role ++ "\n" ++
  "Topic:\n" ++ topic ++ "\n\n" ++
  "Debate instructions:\n" ++
  "- Argue one distinct approach with concrete tradeoffs.\n" ++
  "- Challenge assumptions and mention risks.\n" ++
  "- Give actionable recommendations for the moderator.\n" ++
  "- Follow output contract schema at team/config/output_contract.schema.json.\n"

/-- The synthesized description of a debate moderator task. -/
def debate_moderator_description (debate_id moderator topic : String) : String :=
  "Debate ID: " ++ debate_id ++ "\n" ++
  "Moderator: " ++ moderator ++ "\n" ++
  "Topic:\n" ++ topic ++ "\n\n" ++
  "Moderator instructions:\n" ++
  "- Read all participant outputs.\n" ++
  "- Summarize agreements and disagreements.\n" ++
  "- Produce final recommendation with rationale and next tasks.\n" ++
  "- Follow output contract schema at team/config/output_contract.schema.json.\n"

/-- The enqueue performed for one debate position task. -/
def debate_position_enqueue (debate_id title topic : String) (now : Int) (role : String)
    (st : RuntimeState) : Task × RuntimeState :=
  enqueue_task st role ("[" ++ debate_id ++ "] " ++ title ++ " :: " ++ role)
    (debate_position_description debate_id role topic)
    { debate_id := some debate_id, debate_stage := some "position",
      depends_on_task_ids := some [] } now

/-- The participant loop of create_debate: one dependency-free position task
per role, accumulating participant task ids. -/
def debate_participant_loop (debate_id title topic : String) (now : Int) :
    List String → List String → RuntimeState → List String × RuntimeState
  | [], ids, st => (ids, st)
  | role :: rest, ids, st =>
    let ts := debate_position_enqueue debate_id title topic now role st
    debate_participant_loop debate_id title topic now rest (ids ++ [ts.1.id]) ts.2

/-- The enqueue performed for the debate moderator task, depending on every
participant task id. -/
def debate_moderator_enqueue (debate_id title topic moderator : String) (now : Int)
    (participant_task_ids : List String) (st : RuntimeState) : Task × RuntimeState :=
  enqueue_task st moderator ("[" ++ debate_id ++ "] " ++ title ++ " :: moderator")
    (debate_moderator_description debate_id moderator topic)
    { debate_id := some debate_id, debate_stage := some "moderation",
      depends_on_task_ids := some participant_task_ids } now

/-- Embedding of create_debate: position tasks for every participant role,
then one moderator task depending on all of them, then the debate record. -/
def create_debate (state : RuntimeState) (title topic : String) (roles : List String)
    (moderator : String) (now : Int) : Debate × RuntimeState :=
  let debate_id := next_debate_id state
  let pr := debate_participant_loop debate_id title topic now roles [] state
  let mt := debate_moderator_enqueue debate_id title topic moderator now pr.1 pr.2
  let debate : Debate :=
    { id := debate_id, title := pyStrip title, topic := pyStrip topic, roles := roles,
      moderator := moderator, participant_task_ids := pr.1, moderator_task_id := mt.1.id,
      task_ids := pr.1 ++ [mt.1.id], status := "queued", created_at := now, updated_at := now }
  (debate, { mt.2 with debates := mt.2.debates ++ [debate] })

/-- The per-task transform of recover_inflight_tasks. -/
def recover_one (reason : String) (now : Int) (task : Task) : Task :=
  if task.status = "running" then
    { task with
      status := "queued"
      updated_at := now
      started_at := none
      finished_at := none
      error := some ("Recovered inflight task: " ++ reason) }
  else task

/-- Embedding of recover_inflight_tasks: re-queue every running task with
cleared run timestamps and a recovery error, and return how many tasks were
recovered; the per-task recovery events are I/O and are dropped. -/
def recover_inflight_tasks (state : RuntimeState) (reason : String) (now : Int) :
    Nat × RuntimeState :=
  ((state.tasks.filter fun t => decide (t.status = "running")).length,
   { state with tasks := state.tasks.map (recover_one reason now) })

/-- The status a pipeline or debate member contributes to aggregation: the
status of the resolved task, or the sentinel "missing". -/
def member_status (state : RuntimeState) (task_id : String) : String :=
  match get_task state task_id with
  | some t => t.status
  | none => "missing"

/-- Embedding of recompute_pipeline_status, returning the derived status (the
source also stores it on the pipeline record and logs a change event). -/
def recompute_pipeline_status (state : RuntimeState) (pipeline_id : String) : Option String :=
  match get_pipeline state pipeline_id with
  | none => none
  | some pipeline =>
    let statuses := pipeline.task_ids.map (member_status state)
    some (
      if statuses.any (fun s => s == "failed") then "failed"
      else if !statuses.isEmpty && statuses.all (fun s => s == "done") then "done"
      else if statuses.any (fun s => s == "running") then "running"
      else if statuses.any (fun s => s == "done") then "in_progress"
      else if statuses.any (fun s => s == "queued") then "queued"
      else "queued")

/-- Embedding of recompute_debate_status, returning the derived status (the
source also stores it on the debate record and logs a change event). -/
def recompute_debate_status (state : RuntimeState) (debate_id : String) : Option String :=
  match get_debate state debate_id with
  | none => none
  | some debate =>
    let statuses := debate.task_ids.map (member_status state)
    some (
      if statuses.any (fun s => s == "failed") then "failed"
      else if !statuses.isEmpty && statuses.all (fun s => s == "done") then "done"
      else if statuses.any (fun s => s == "running") then "running"
      else if statuses.any (fun s => s == "done") then "in_progress"
      else if statuses.any (fun s => s == "queued") then "queued"
      else "queued")

/-- Quota policy values as normalized by read_quota_policy. -/
structure QuotaPolicy where
  defer_on_exhausted_models : Bool
  defer_minutes_on_exhausted_models : Int
  quota_error_markers : List String

/-- The defaults read_quota_policy supplies when the config file is absent. -/
def default_quota_policy : QuotaPolicy :=
  { defer_on_exhausted_models := true
    defer_minutes_on_exhausted_models := 45
    quota_error_markers :=
      ["rate limit", "quota", "limit exceeded", "too many requests", "429",
       "insufficient credits"] }

/-- Embedding of is_quota_error over the marker list of the active policy: a
case-insensitive substring match of any marker against stderr. -/
def is_quota_error (policy : QuotaPolicy) (stderr : String) : Bool :=
  let lowered := lowerStr stderr
  policy.quota_error_markers.any fun marker => strContains lowered (lowerStr marker)

/-- The result record of one agent-backend invocation (CodexResult): exit
code, session handle, message text, stderr text, backend and model. -/
structure CodexResult where
  return_code : Int
  session_id : Option String
  message : String
  stderr : String
  backend : String := "codex"
  model : Option String := none

/-- An abstract agent runner: the outcome of the attempt at a given 1-based
model-chain index and format-attempt number.  The source builds a prompt,
session handle and correction feedback and spawns a subprocess; every concrete
execution trace of run_model_task is one such function (timeouts surface as
exit code 124 and a timed-out stderr, a missing binary as 127 and a not-found
stderr). -/
def AgentRunner : Type := Nat → Nat → CodexResult

/-- The loop state of the format-retry loop inside one chain entry. -/
structure EntryLoopState where
  attempts : Nat
  session_for_attempt : Option String
  result : Option CodexResult
  contract : Option Ctr
  model_contract_errors : List String
  success : Bool

/-- The inner format-retry loop of _dispatch_task_object for the chain entry
at index midx: up to 1 + MAX_OUTPUT_FORMAT_RETRIES attempts; a non-zero exit
aborts the entry at once, a valid contract succeeds, a contract violation
retries with correction feedback (feedback only alters the prompt, which the
runner abstracts). -/
def run_format_attempts (runner : AgentRunner) (role : String) (task : Task) (midx : Nat) :
    Nat → Nat → EntryLoopState → EntryLoopState
  | 0, _, s => s
  | remaining + 1, fa, s =>
    let result := runner midx fa
    let session2 :=
      match result.session_id with
      | some sid => if sid ≠ "" then some sid else s.session_for_attempt
      | none => s.session_for_attempt
    if result.return_code ≠ 0 then
      { s with
        attempts := s.attempts + 1
        session_for_attempt := session2
        result := some result
        success := false }
    else
      let contract := extract_output_contract result.message
      let errs := validate_task_output role task result.message contract
      if errs.isEmpty then
        { attempts := s.attempts + 1
          session_for_attempt := session2
          result := some result
          contract := contract
          model_contract_errors := []
          success := true }
      else
        run_format_attempts runner role task midx remaining (fa + 1)
          { attempts := s.attempts + 1
            session_for_attempt := session2
            result := some result
            contract := contract
            model_contract_errors := errs
            success := false }

/-- Embedding of _same_session_model: the cached role session is reusable only
when its recorded backend and model match the chain entry; a legacy record
with a session but an empty backend counts as codex.  Python str() renders a
null field as the string None. -/
def same_session_model (role_state : RoleState) (backend model : String) : Bool :=
  let eb0 := lowerStr (pyStrip (match role_state.session_backend with
    | some s => s
    | none => "None"))
  let em := pyStrip (match role_state.session_model with
    | some s => s
    | none => "None")
  let sidTruthy := match role_state.session_id with | some s => s ≠ "" | none => false
  let eb := if eb0 = "" && sidTruthy then "codex" else eb0
  eb == lowerStr (pyStrip backend) && em == pyStrip model

/-- The normalized backend and model of a chain entry as the dispatch loop
computes them. -/
def norm_chain_entry (entry : ModelEntry) : ModelEntry :=
  let b := lowerStr (pyStrip entry.backend)
  { backend := if b = "" then "codex" else b, model := pyStrip entry.model }

/-- The outer chain-loop state of _dispatch_task_object. -/
structure ChainLoopState where
  attempts : Nat
  result : Option CodexResult
  contract : Option Ctr
  contract_errors : List String
  attempted_models : List ModelEntry
  exhausted_models : List ModelEntry
  role_state : RoleState
  success : Bool

/-- The quota test of the chain loop on an entry outcome: a present result
with a non-zero exit whose stderr matches a quota marker. -/
def quota_flag (policy : QuotaPolicy) (e : EntryLoopState) : Bool :=
  match e.result with
  | some r => (decide (r.return_code ≠ 0)) && is_quota_error policy r.stderr
  | none => false

/-- The session handle offered to a chain entry: the cached role session,
only when reusable for this backend and model and non-empty. -/
def entry_session (role_state : RoleState) (backend model : String) : Option String :=
  if same_session_model role_state backend model then
    match role_state.session_id with
    | some es => if pyStrip es ≠ "" then some es else none
    | none => none
  else none

/-- The inner-loop state a chain entry starts from: the carried result and
contract, a reset error list and no success. -/
def entry_start (s : ChainLoopState) (session0 : Option String) : EntryLoopState :=
  { attempts := s.attempts, session_for_attempt := session0, result := s.result,
    contract := s.contract, model_contract_errors := [], success := false }

/-- The chain-loop state with the current entry recorded as attempted. -/
def chain_entry_input (s : ChainLoopState) (entry : ModelEntry) : ChainLoopState :=
  { s with attempted_models := s.attempted_models ++ [norm_chain_entry entry] }

/-- The format-retry loop of one chain entry, started from the carried state
and the session offered for this entry. -/
def chain_entry_run (runner : AgentRunner) (mfr : Nat) (role : String) (task : Task)
    (midx : Nat) (entry : ModelEntry) (s : ChainLoopState) : EntryLoopState :=
  run_format_attempts runner role task midx (mfr + 1) 1
    (entry_start (chain_entry_input s entry)
      (entry_session (chain_entry_input s entry).role_state (norm_chain_entry entry).backend
        (norm_chain_entry entry).model))

/-- One iteration of the model-chain loop of _dispatch_task_object: run the
format-retry loop for this entry; on success persist the session onto the
role record; on failure carry the entry result and, when the final result is
a non-zero exit with a quota-marked stderr, record the entry as
quota-exhausted. -/
def chain_entry_step (runner : AgentRunner) (policy : QuotaPolicy) (mfr : Nat) (role : String)
    (task : Task) (midx : Nat) (entry : ModelEntry) (s : ChainLoopState) : ChainLoopState :=
  let ne := norm_chain_entry entry
  let s1 := chain_entry_input s entry
  let e := chain_entry_run runner mfr role task midx entry s
  if e.success then
    { s1 with
      attempts := e.attempts
      result := e.result
      contract := e.contract
      contract_errors := []
      role_state := { s1.role_state with
        session_id := e.session_for_attempt
        session_backend := (e.result.map fun r => r.backend)
        session_model := some (((e.result.bind fun r => r.model)).getD "") }
      success := true }
  else
    let s2 := { s1 with
      attempts := e.attempts
      result := e.result
      contract := e.contract
      contract_errors := e.model_contract_errors }
    if quota_flag policy e then { s2 with exhausted_models := s2.exhausted_models ++ [ne] }
    else s2

/-- The model-chain loop of _dispatch_task_object: run entries in order,
stopping at the first entry that succeeds with a valid contract. -/
def chain_loop (runner : AgentRunner) (policy : QuotaPolicy) (mfr : Nat) (role : String)
    (task : Task) : Nat → List ModelEntry → ChainLoopState → ChainLoopState
  | _, [], s => s
  | midx, entry :: rest, s =>
    let s2 := chain_entry_step runner policy mfr role task midx entry s
    if s2.success then s2 else chain_loop runner policy mfr role task (midx + 1) rest s2

/-- Python truthiness of an optional parsed contract: a present non-empty
dict. -/
def ctrTruthy : Option Ctr → Bool
  | some fields => !fields.isEmpty
  | none => false

/-- The relative path write_task_output returns for a task report. -/
def task_output_relpath (task_id : String) : String :=
  "team/state/task_outputs/" ++ task_id ++ ".md"

/-- The relative path write_task_compression returns. -/
def task_compression_relpath (task_id : String) : String :=
  "team/state/task_outputs/" ++ task_id ++ ".compression.md"

/-- The task as _dispatch_task_object marks it before the chain loop: running,
start stamped, any stale retry_at popped. -/
def dispatch_running_task (task : Task) (now : Int) : Task :=
  { task with
    status := "running"
    started_at := some now
    updated_at := now
    metadata := { task.metadata with retry_at := none } }

/-- The outcome of _dispatch_task_object: the returned exit code and the
updated task and role records. -/
structure DispatchOutcome where
  return_code : Int
  task : Task
  role_state : RoleState

/-- The initial state of the model-chain loop. -/
def chain_loop_init (rs1 : RoleState) : ChainLoopState :=
  { attempts := 0, result := none, contract := none, contract_errors := [],
    attempted_models := [], exhausted_models := [], role_state := rs1, success := false }

/-- The final chain-loop state of a dispatch: the loop run from entry index
one over the resolved chain, with the task marked running and the role busy. -/
def dispatch_chain_result (runner : AgentRunner) (policy : QuotaPolicy) (mfr : Nat)
    (chain : List ModelEntry) (task : Task) (role_state0 : RoleState) (now : Int) :
    ChainLoopState :=
  chain_loop runner policy mfr task.role (dispatch_running_task task now) 1 chain
    (chain_loop_init { role_state0 with state := "busy" })

/-- The task record of the dispatch done branch: completed, report path and
metadata recorded, a compression path when a contract is present. -/
def dispatch_done_task (task1 : Task) (fin : ChainLoopState) (r : CodexResult) (now : Int) :
    Task :=
  { task1 with
    status := "done"
    error := none
    output_path := some (task_output_relpath task1.id)
    finished_at := some now
    metadata := { task1.metadata with
      runner_backend := some r.backend
      runner_model := r.model
      attempted_models := some fin.attempted_models
      output_contract := fin.contract
      compression_path :=
        if ctrTruthy fin.contract then some (task_compression_relpath task1.id)
        else task1.metadata.compression_path } }

/-- The task record of the dispatch deferral branch: re-queued via
set_task_retry with the configured defer minutes, attempted and exhausted
model lists recorded. -/
def dispatch_defer_task (policy : QuotaPolicy) (toIso : Int → String) (task1 : Task)
    (fin : ChainLoopState) (now : Int) : Task :=
  let dm := policy.defer_minutes_on_exhausted_models
  let reason := "All configured models hit quota/rate limits. Deferred for " ++
    toString dm ++ " minutes."
  let td := set_task_retry toIso now task1 dm reason
  { td with metadata := { td.metadata with
      attempted_models := some fin.attempted_models
      quota_exhausted_models := some fin.exhausted_models } }

/-- The task record of the dispatch terminal failure branch: failed with the
joined contract violations, else the last stderr, else a generic message. -/
def dispatch_fail_task (task1 : Task) (fin : ChainLoopState) (r : CodexResult) (now : Int) :
    Task :=
  { task1 with
    status := "failed"
    error := some (
      if !fin.contract_errors.isEmpty then
        "Output contract invalid: " ++ String.intercalate "; " fin.contract_errors
      else if r.stderr ≠ "" then r.stderr
      else "Model execution failed")
    finished_at := some now
    metadata := { task1.metadata with attempted_models := some fin.attempted_models } }

/-- The post-loop processing of _dispatch_task_object when the loop produced
a result: choose done, deferral or terminal failure, then release the role,
stamp the task session and updated time, and compute the exit code. -/
def dispatch_finish (policy : QuotaPolicy) (toIso : Int → String) (task1 : Task)
    (fin : ChainLoopState) (r : CodexResult) (now : Int) : DispatchOutcome :=
  let task2 :=
    if r.return_code = 0 && fin.contract_errors.isEmpty then
      dispatch_done_task task1 fin r now
    else if (decide (0 < fin.attempted_models.length) &&
        decide (fin.exhausted_models.length = fin.attempted_models.length)) &&
        policy.defer_on_exhausted_models then
      dispatch_defer_task policy toIso task1 fin now
    else dispatch_fail_task task1 fin r now
  let rs2 :=
    if r.return_code = 0 && fin.contract_errors.isEmpty then
      { fin.role_state with tasks_completed := fin.role_state.tasks_completed + 1 }
    else fin.role_state
  let rs3 := { rs2 with state := "idle", last_active_at := some now }
  let task3 := { task2 with session_id := rs3.session_id, updated_at := now }
  let rc : Int :=
    if task3.status = "done" then 0
    else if task3.status = "queued" then 0
    else if r.return_code ≠ 0 then r.return_code else 1
  { return_code := rc, task := task3, role_state := rs3 }

/-- Embedding of _dispatch_task_object on the task and its role record.  The
chain argument is the resolved model chain of the role; runner, policy and
toIso abstract the agent backend, the quota policy config and ISO timestamp
writing.  Event appends, report/compression file writes (kept as their path
values), handoff context (prompt-only) and the owner pipeline/debate recompute
are outside the task-and-role outcome modelled here. -/
def dispatch_task_object (runner : AgentRunner) (policy : QuotaPolicy) (toIso : Int → String)
    (mfr : Nat) (chain : List ModelEntry) (task : Task) (role_state0 : RoleState) (now : Int) :
    DispatchOutcome :=
  let task1 := dispatch_running_task task now
  let fin := dispatch_chain_result runner policy mfr chain task role_state0 now
  match fin.result with
  | none =>
    { return_code := 1
      task := { task1 with
        status := "failed"
        error := some "Internal error: task execution did not produce a result"
        finished_at := some now }
      role_state := { fin.role_state with state := "idle", last_active_at := some now } }
  | some r => dispatch_finish policy toIso task1 fin r now

/-- The initial inner-loop state of a chain entry, with the error list reset. -/
def entry_init : EntryLoopState :=
  { attempts := 0, session_for_attempt := none, result := none, contract := none,
    model_contract_errors := [], success := false }

/-- The outcome of the format-retry loop of chain entry midx taken in
isolation; the observable outcome fields do not depend on the carried state. -/
def entry_final (runner : AgentRunner) (role : String) (task : Task) (mfr midx : Nat) :
    EntryLoopState :=
  run_format_attempts runner role task midx (mfr + 1) 1 entry_init

/-- Whether chain entry midx ends in a hard failure whose stderr matches a
quota marker: the condition under which the dispatch loop records the entry as
quota-exhausted. -/
def entry_quota_failed (runner : AgentRunner) (policy : QuotaPolicy) (role : String)
    (task : Task) (mfr midx : Nat) : Bool :=
  quota_flag policy (entry_final runner role task mfr midx)

/-- The owner-status reduction exactly as the specification words it: any
failed, else all done of a non-empty list, else any running, else any done,
else any queued, else queued. -/
def owner_status_reduction (statuses : List String) : String :=
  if "failed" ∈ statuses then "failed"
  else if statuses ≠ [] ∧ ∀ s ∈ statuses, s = "done" then "done"
  else if "running" ∈ statuses then "running"
  else if "done" ∈ statuses then "in_progress"
  else if "queued" ∈ statuses then "queued"
  else "queued"

/-- The strict linear dependency chain shape of pipeline stage tasks: the
first task depends on the seed list and every later task depends exactly on
the singleton id of its predecessor. -/
def dep_chain (seed : List String) : List Task → Prop
  | [] => True
  | t :: rest => t.metadata.depends_on_task_ids = some seed ∧ dep_chain [t.id] rest

/-- Whether the text contains the json fence marker, case-insensitively. -/
def hasJsonFenceMarker (text : String) : Bool :=
  (rfindCL (text.data.map pyToLower) ("```json".data.map pyToLower)).isSome

/-- Brace-depth scan; none when a closing brace appears at depth zero. -/
def braceScan : List Char → Int → Option Int
  | [], d => some d
  | c :: rest, d =>
    if c = lbrace then braceScan rest (d + 1)
    else if c = rbrace then (if d ≤ 0 then none else braceScan rest (d - 1))
    else braceScan rest d

/-- A balanced brace-delimited block: opens with a brace, closes with the
matching brace, and never closes below depth zero in between. -/
def isBalancedBraceBlock (cs : List Char) : Bool :=
  match cs with
  | [] => false
  | c :: _ => c = lbrace && cs.getLast? = some rbrace && braceScan cs 0 = some 0

/-- Modelled from the spec: the last balanced brace-delimited substring of the
text, the one ending last with ties broken by the latest start. -/
def lastBalancedBraceSub (text : String) : Option (List Char) :=
  let cs := text.data
  let n := cs.length
  let cands := (List.range (n + 1)).flatMap fun i =>
    (List.range (n + 1)).filterMap fun j =>
      if i < j ∧ isBalancedBraceBlock ((cs.drop i).take (j - i)) then some (i, j) else none
  let best := cands.foldl (fun acc p =>
    match acc with
    | none => some p
    | some q => if q.2 < p.2 ∨ (q.2 = p.2 ∧ q.1 < p.1) then some p else some q) none
  match best with
  | some p => some ((cs.drop p.1).take (p.2 - p.1))
  | none => none

/-- The quota-exhausted entries the chain loop records over a chain suffix
starting at index midx, assuming no entry succeeds. -/
def exhausted_of (runner : AgentRunner) (policy : QuotaPolicy) (role : String) (task : Task)
    (mfr : Nat) : Nat → List ModelEntry → List ModelEntry
  | _, [] => []
  | midx, entry :: rest =>
    (if entry_quota_failed runner policy role task mfr midx then [norm_chain_entry entry] else [])
      ++ exhausted_of runner policy role task mfr (midx + 1) rest

/-- The terminal failure message of the dispatch failure branch: the joined
contract violations of the last chain entry, else its last stderr, else the
generic message. -/
def dispatch_failure_error (runner : AgentRunner) (role : String) (task : Task)
    (mfr lastIdx : Nat) : String :=
  let e := entry_final runner role task mfr lastIdx
  if !e.model_contract_errors.isEmpty then
    "Output contract invalid: " ++ String.intercalate "; " e.model_contract_errors
  else
    match e.result with
    | some r => if r.stderr ≠ "" then r.stderr else "Model execution failed"
    | none => "Model execution failed"

/-- A queued qa task used as a concrete validation target. -/
def c4Task : Task :=
  { id := "TASK-0001", role := "qa", title := "t", description := "d", status := "queued",
    created_at := 0, updated_at := 0 }

/-- A contract carrying every checked field except status, all valid. -/
def c4Contract : Ctr :=
  [("task_id", .str "TASK-0001"), ("owner", .str "qa"),
   ("acceptance_criteria", .arr [.str "ok"]), ("artifacts", .arr [.str "a.md"]),
   ("handoff_to", .arr [.str "devops"]),
   ("next_role_action_items", .arr [.obj [("role", .str "devops"), ("items", .arr [.str "ship"])]])]

/-- A contract missing the required task_id field. -/
def c4BadContract : Ctr := [("owner", JVal.str "qa")]

/-- A contract whose task_id does not match the task. -/
def c4MismatchContract : Ctr := [("task_id", JVal.str "TASK-9999")]

/-- A completed concept stage task. -/
def c2DoneTask : Task :=
  { id := "TASK-0001", role := "concept", title := "a", description := "d", status := "done",
    created_at := 0, updated_at := 0 }

/-- A queued coder stage task depending on the concept task. -/
def c2CoderTask : Task :=
  { id := "TASK-0002", role := "coder", title := "b", description := "d", status := "queued",
    created_at := 0, updated_at := 0, metadata := { depends_on_task_ids := some ["TASK-0001"] } }

/-- A two-stage pipeline state with stage one done. -/
def c2State : RuntimeState := { tasks := [c2DoneTask, c2CoderTask] }

/-- A small task pool covering the statuses used by the aggregation examples. -/
def c3Task (n : Nat) (st : String) : Task :=
  { id := "TASK-000" ++ toString n, role := "qa", title := "t", description := "d", status := st,
    created_at := 0, updated_at := 0 }

/-- A pipeline over two member task ids. -/
def c3Pipe (n : Nat) (ids : List String) : Pipeline :=
  { id := "PIPE-000" ++ toString n, title := "p", brief := "b", roles := [], task_ids := ids,
    status := "queued", created_at := 0, updated_at := 0 }

/-- A debate over two member task ids. -/
def c3Debate (ids : List String) : Debate :=
  { id := "DEBATE-0001", title := "d", topic := "t", roles := [],
    moderator := "orchestrator", participant_task_ids := ids.take 1,
    moderator_task_id := (ids.getLast?).getD "", task_ids := ids,
    status := "queued", created_at := 0, updated_at := 0 }

/-- A state carrying the five member-status example pipelines and one debate. -/
def c3State : RuntimeState :=
  { tasks := [c3Task 1 "done", c3Task 2 "running", c3Task 3 "failed", c3Task 4 "queued",
      c3Task 5 "done", c3Task 6 "queued"]
    pipelines := [c3Pipe 1 ["TASK-0001", "TASK-0002"], c3Pipe 2 ["TASK-0001", "TASK-0005"],
      c3Pipe 3 ["TASK-0003", "TASK-0004"], c3Pipe 4 ["TASK-0004", "TASK-0006"],
      c3Pipe 5 ["TASK-0001", "TASK-0004"]]
    debates := [c3Debate ["TASK-0001", "TASK-0002"]] }

/-- A base task for the deferral scenario. -/
def c6Task : Task :=
  { id := "TASK-0001", role := "qa", title := "t", description := "d", status := "queued",
    created_at := 0, updated_at := 0 }

/-- A concrete ISO writer for the deferral scenario. -/
def c6Iso : Int → String := fun _ => "R"

/-- A concrete ISO reader matching c6Iso at the stamped instant 300. -/
def c6FromIso : String → Option Int := fun s => if s = "R" then some 300 else none

/-- The c6 task deferred five minutes at time zero. -/
def c6Deferred : Task := set_task_retry c6Iso 0 c6Task 5 "quota"

/-- A state holding only the deferred task. -/
def c6State : RuntimeState := { tasks := [c6Deferred] }

/-- A running task caught in flight. -/
def c8Running : Task :=
  { id := "TASK-0001", role := "qa", title := "t", description := "d",
    status := "running", created_at := 0, updated_at := 0, started_at := some 1 }

/-- A finished task untouched by recovery. -/
def c8Done : Task :=
  { id := "TASK-0002", role := "qa", title := "t", description := "d", status := "done",
    created_at := 0, updated_at := 0 }

/-- A state with one running and one done task, for recovery. -/
def c8State : RuntimeState := { tasks := [c8Running, c8Done] }

/-- A queued dependency-free task with an unparseable retry_at. -/
def c9Task : Task :=
  { id := "TASK-0001", role := "qa", title := "t", description := "d", status := "queued",
    created_at := 0, updated_at := 0, metadata := { retry_at := some "not-a-timestamp" } }

/-- A state holding only the c9 task. -/
def c9State : RuntimeState := { tasks := [c9Task] }

/-- A done task referenced by the partially-missing pipeline. -/
def c10Done : Task :=
  { id := "TASK-0001", role := "qa", title := "t", description := "d",
    status := "done", created_at := 0, updated_at := 0 }

/-- A state whose pipelines and debate reference a missing member task id. -/
def c10State : RuntimeState :=
  { tasks := [c10Done]
    pipelines := [c3Pipe 1 ["TASK-0001", "TASK-0099"], c3Pipe 2 ["TASK-0098", "TASK-0099"]]
    debates := [c3Debate ["TASK-0001", "TASK-0099"]] }

/-- A runner whose every attempt exits non-zero with a rate-limited stderr. -/
def c1Runner : AgentRunner := fun _ _ =>
  { return_code := 1, session_id := none, message := "", stderr := "rate limit reached" }

/-- A one-entry model chain. -/
def c1Chain : List ModelEntry := [{ backend := "codex", model := "" }]

/-- A queued coder task to dispatch. -/
def c1Task : Task :=
  { id := "TASK-0001", role := "coder", title := "t", description := "d", status := "queued",
    created_at := 0, updated_at := 0 }

/-- A concrete ISO writer for the dispatch deferral stamp. -/
def c1Iso : Int → String := fun _ => "RETRYAT"

theorem any_beq_decide (l : List String) (a : String) :
    (l.any fun s => s == a) = decide (a ∈ l) := by
  induction l with
  | nil => rfl
  | cons x xs ih =>
    by_cases hx : a = x
    · subst hx; simp [List.any_cons]
    · have hx2 : ¬x = a := fun h => hx h.symm
      simp [List.any_cons, ih, List.mem_cons, hx, hx2]

theorem all_beq_decide (l : List String) (a : String) :
    (l.all fun s => s == a) = decide (∀ s ∈ l, s = a) := by
  induction l with
  | nil => rfl
  | cons x xs ih =>
    by_cases hx : x = a
    · subst hx; simp [List.all_cons, ih]
    · simp [List.all_cons, hx]

theorem not_isEmpty_decide (l : List String) : (!l.isEmpty) = decide (l ≠ []) := by
  cases l <;> simp

theorem status_chain_eq (statuses : List String) :
    (if statuses.any (fun s => s == "failed") then "failed"
     else if !statuses.isEmpty && statuses.all (fun s => s == "done") then "done"
     else if statuses.any (fun s => s == "running") then "running"
     else if statuses.any (fun s => s == "done") then "in_progress"
     else if statuses.any (fun s => s == "queued") then "queued"
     else "queued") = owner_status_reduction statuses := by
  unfold owner_status_reduction
  rw [any_beq_decide, any_beq_decide, any_beq_decide, any_beq_decide, all_beq_decide,
    not_isEmpty_decide]
  simp only [Bool.and_eq_true, decide_eq_true_eq]

theorem recompute_pipeline_eq (state : RuntimeState) (pid : String) (pipeline : Pipeline)
    (h : get_pipeline state pid = some pipeline) :
    recompute_pipeline_status state pid =
      some (owner_status_reduction (pipeline.task_ids.map (member_status state))) := by
  unfold recompute_pipeline_status
  rw [h]
  exact congrArg some (status_chain_eq _)

theorem recompute_debate_eq (state : RuntimeState) (did : String) (debate : Debate)
    (h : get_debate state did = some debate) :
    recompute_debate_status state did =
      some (owner_status_reduction (debate.task_ids.map (member_status state))) := by
  unfold recompute_debate_status
  rw [h]
  exact congrArg some (status_chain_eq _)

theorem reduction_ne_done_of_missing (ss : List String) (h : "missing" ∈ ss) :
    owner_status_reduction ss ≠ "done" := by
  unfold owner_status_reduction
  split_ifs with h1 h2
  · decide
  · exact fun _ => absurd (h2.2 _ h) (by decide)
  all_goals decide

theorem reduction_all_missing (ss : List String) (h : ∀ s ∈ ss, s = "missing") :
    owner_status_reduction ss = "queued" := by
  unfold owner_status_reduction
  split_ifs with h1 h2 h3 h4 h5 <;> try rfl
  · exact absurd (h _ h1) (by decide)
  · obtain ⟨hne, hall⟩ := h2
    cases ss with
    | nil => exact absurd rfl hne
    | cons x xs =>
      have hm := h x (List.mem_cons_self x xs)
      have hd := hall x (List.mem_cons_self x xs)
      rw [hm] at hd
      exact absurd hd (by decide)
  · exact absurd (h _ h3) (by decide)
  · exact absurd (h _ h4) (by decide)

/-- C3: the pipeline and debate status aggregations both equal the
deterministic priority reduction of the specification (any failed, else all
done, else any running, else any done, else any queued, else queued), and the
five listed member-status examples evaluate accordingly, identically for
pipelines and debates. -/
theorem C3_owner_status_aggregation :
    (∀ state pid pipeline, get_pipeline state pid = some pipeline →
      recompute_pipeline_status state pid =
        some (owner_status_reduction (pipeline.task_ids.map (member_status state)))) ∧
    (∀ state did debate, get_debate state did = some debate →
      recompute_debate_status state did =
        some (owner_status_reduction (debate.task_ids.map (member_status state)))) ∧
    recompute_pipeline_status c3State "PIPE-0001" = some "running" ∧
    recompute_pipeline_status c3State "PIPE-0002" = some "done" ∧
    recompute_pipeline_status c3State "PIPE-0003" = some "failed" ∧
    recompute_pipeline_status c3State "PIPE-0004" = some "queued" ∧
    recompute_pipeline_status c3State "PIPE-0005" = some "in_progress" ∧
    recompute_debate_status c3State "DEBATE-0001" = some "running" :=
  ⟨recompute_pipeline_eq, recompute_debate_eq, rfl, rfl, rfl, rfl, rfl, rfl⟩

theorem C3_owner_status_aggregation_witness :
    get_pipeline c3State "PIPE-0001" = some (c3Pipe 1 ["TASK-0001", "TASK-0002"]) ∧
    recompute_pipeline_status c3State "PIPE-0001" =
      some (owner_status_reduction
        ((c3Pipe 1 ["TASK-0001", "TASK-0002"]).task_ids.map (member_status c3State))) ∧
    get_debate c3State "DEBATE-0001" = some (c3Debate ["TASK-0001", "TASK-0002"]) ∧
    recompute_debate_status c3State "DEBATE-0001" =
      some (owner_status_reduction
        ((c3Debate ["TASK-0001", "TASK-0002"]).task_ids.map (member_status c3State))) :=
  ⟨rfl, C3_owner_status_aggregation.1 c3State "PIPE-0001" _ rfl, rfl,
    C3_owner_status_aggregation.2.1 c3State "DEBATE-0001" _ rfl⟩

/-- C10: a member task id resolving to no task contributes the sentinel
status missing, which satisfies none of the failed, done or running tests;
a pipeline or debate with at least one missing member is never aggregated to
done, and one whose members are all missing aggregates to queued. -/
theorem C10_missing_member_aggregation :
    (∀ state tid, get_task state tid = none → member_status state tid = "missing") ∧
    ("missing" ≠ "failed" ∧ "missing" ≠ "done" ∧ "missing" ≠ "running") ∧
    (∀ state pid pipeline, get_pipeline state pid = some pipeline →
      ((∃ tid ∈ pipeline.task_ids, get_task state tid = none) →
        recompute_pipeline_status state pid ≠ some "done") ∧
      ((∀ tid ∈ pipeline.task_ids, get_task state tid = none) →
        recompute_pipeline_status state pid = some "queued")) ∧
    (∀ state did debate, get_debate state did = some debate →
      ((∃ tid ∈ debate.task_ids, get_task state tid = none) →
        recompute_debate_status state did ≠ some "done") ∧
      ((∀ tid ∈ debate.task_ids, get_task state tid = none) →
        recompute_debate_status state did = some "queued")) := by
  refine ⟨?_, by decide, ?_, ?_⟩
  · intro state tid h
    unfold member_status
    rw [h]
  · intro state pid pipeline h
    rw [recompute_pipeline_eq state pid pipeline h]
    constructor
    · rintro ⟨tid, htid, hnone⟩ heq
      have hmem : "missing" ∈ pipeline.task_ids.map (member_status state) := by
        refine List.mem_map.mpr ⟨tid, htid, ?_⟩
        unfold member_status
        rw [hnone]
      exact reduction_ne_done_of_missing _ hmem (Option.some.inj heq)
    · intro hall
      have : ∀ s ∈ pipeline.task_ids.map (member_status state), s = "missing" := by
        intro s hs
        obtain ⟨tid, htid, hval⟩ := List.mem_map.mp hs
        rw [← hval]
        unfold member_status
        rw [hall tid htid]
      rw [reduction_all_missing _ this]
  · intro state did debate h
    rw [recompute_debate_eq state did debate h]
    constructor
    · rintro ⟨tid, htid, hnone⟩ heq
      have hmem : "missing" ∈ debate.task_ids.map (member_status state) := by
        refine List.mem_map.mpr ⟨tid, htid, ?_⟩
        unfold member_status
        rw [hnone]
      exact reduction_ne_done_of_missing _ hmem (Option.some.inj heq)
    · intro hall
      have : ∀ s ∈ debate.task_ids.map (member_status state), s = "missing" := by
        intro s hs
        obtain ⟨tid, htid, hval⟩ := List.mem_map.mp hs
        rw [← hval]
        unfold member_status
        rw [hall tid htid]
      rw [reduction_all_missing _ this]

theorem C10_missing_member_aggregation_witness :
    member_status c10State "TASK-0099" = "missing" ∧
    recompute_pipeline_status c10State "PIPE-0001" ≠ some "done" ∧
    recompute_pipeline_status c10State "PIPE-0002" = some "queued" ∧
    recompute_debate_status c10State "DEBATE-0001" ≠ some "done" :=
  ⟨C10_missing_member_aggregation.1 c10State "TASK-0099" rfl,
   ((C10_missing_member_aggregation.2.2.1 c10State "PIPE-0001" _ rfl).1
     ⟨"TASK-0099", by simp [c3Pipe], rfl⟩),
   ((C10_missing_member_aggregation.2.2.1 c10State "PIPE-0002" _ rfl).2
     (by intro tid h; simp only [c3Pipe, List.mem_cons, List.not_mem_nil, or_false] at h
         rcases h with h | h <;> subst h <;> rfl)),
   ((C10_missing_member_aggregation.2.2.2 c10State "DEBATE-0001" _ rfl).1
     ⟨"TASK-0099", by simp [c3Debate], rfl⟩)⟩

/-- C9: a task whose metadata.retry_at is missing, empty, or not parseable is
not deferred, and when queued and ready it is not among the blocked tasks and
some task is available for dispatch. -/
theorem C9_unparseable_retry_not_deferred :
    ∀ (fromIso : String → Option Int) (now : Int) (task : Task) (state : RuntimeState),
      (pyStrip (task.metadata.retry_at.getD "") = "" ∨
        fromIso (pyStrip (task.metadata.retry_at.getD "")) = none) →
      is_task_deferred fromIso now task = false ∧
      (task ∈ state.tasks → task.status = "queued" → is_task_ready state task = true →
        task ∉ queued_but_blocked fromIso now state ∧
        ∃ t, next_queued_task fromIso now state = some t) := by
  intro fromIso now task state h
  have hdef : is_task_deferred fromIso now task = false := by
    unfold is_task_deferred parse_iso_datetime
    by_cases he : pyStrip (task.metadata.retry_at.getD "") = ""
    · simp [he]
    · rcases h with h | h
      · exact absurd h he
      · simp [he, h]
  refine ⟨hdef, fun hmem hq hready => ⟨?_, ?_⟩⟩
  · intro hin
    unfold queued_but_blocked at hin
    have hp := (List.mem_filter.mp hin).2
    rw [hdef, hready] at hp
    simp at hp
  · cases hfind : next_queued_task fromIso now state with
    | some t => exact ⟨t, rfl⟩
    | none =>
      exfalso
      unfold next_queued_task at hfind
      have hnp := List.find?_eq_none.mp hfind task hmem
      rw [hdef, hready, hq] at hnp
      simp at hnp

theorem C9_unparseable_retry_not_deferred_witness :
    ((fun _ => (none : Option Int)) (pyStrip (c9Task.metadata.retry_at.getD "")) =
      (none : Option Int)) ∧
    is_task_deferred (fun _ => none) 0 c9Task = false ∧
    c9Task ∉ queued_but_blocked (fun _ => none) 0 c9State ∧
    ∃ t, next_queued_task (fun _ => none) 0 c9State = some t :=
  have h := C9_unparseable_retry_not_deferred (fun _ => none) 0 c9Task c9State (Or.inr rfl)
  ⟨rfl, h.1, (h.2 (by simp [c9State]) rfl rfl).1, (h.2 (by simp [c9State]) rfl rfl).2⟩

/-- C8: recover_inflight_tasks re-queues exactly the running tasks, clearing
started_at and finished_at and recording a non-empty recovery error, returns
the number of tasks recovered, leaves every other task unchanged, and leaves
no task running. -/
theorem C8_recover_inflight :
    ∀ (state : RuntimeState) (reason : String) (now : Int),
      (recover_inflight_tasks state reason now).2.tasks.length = state.tasks.length ∧
      (recover_inflight_tasks state reason now).1 =
        state.tasks.countP (fun t => decide (t.status = "running")) ∧
      (∀ i (h : i < state.tasks.length)
          (h2 : i < (recover_inflight_tasks state reason now).2.tasks.length),
        ((state.tasks.get ⟨i, h⟩).status = "running" →
          (recover_inflight_tasks state reason now).2.tasks.get ⟨i, h2⟩ =
            { state.tasks.get ⟨i, h⟩ with
              status := "queued"
              updated_at := now
              started_at := none
              finished_at := none
              error := some ("Recovered inflight task: " ++ reason) }) ∧
        ((state.tasks.get ⟨i, h⟩).status ≠ "running" →
          (recover_inflight_tasks state reason now).2.tasks.get ⟨i, h2⟩ =
            state.tasks.get ⟨i, h⟩)) ∧
      ("Recovered inflight task: " ++ reason) ≠ "" ∧
      (∀ t ∈ (recover_inflight_tasks state reason now).2.tasks, t.status ≠ "running") := by
  intro state reason now
  refine ⟨by simp [recover_inflight_tasks], ?_, ?_, ?_, ?_⟩
  · exact (List.countP_eq_length_filter _ _).symm
  · intro i h h2
    constructor
    · intro hrun
      rw [List.get_eq_getElem] at hrun
      simp only [recover_inflight_tasks, List.get_eq_getElem, List.getElem_map]
      unfold recover_one
      rw [if_pos hrun]
    · intro hnot
      rw [List.get_eq_getElem] at hnot
      simp only [recover_inflight_tasks, List.get_eq_getElem, List.getElem_map]
      unfold recover_one
      rw [if_neg hnot]
  · intro hEq
    have hdata := congrArg String.data hEq
    rw [String.data_append] at hdata
    simp at hdata
  · intro t ht
    simp only [recover_inflight_tasks] at ht
    obtain ⟨x, _, hfx⟩ := List.mem_map.mp ht
    rw [← hfx]
    unfold recover_one
    split_ifs with hr
    · simp
    · exact hr

theorem C8_recover_inflight_witness :
    c8Running.status = "running" ∧ c8Done.status ≠ "running" ∧
    (recover_inflight_tasks c8State "boom" 7).2.tasks.get ⟨0, by decide⟩ =
      { c8Running with
        status := "queued"
        updated_at := 7
        started_at := none
        finished_at := none
        error := some ("Recovered inflight task: " ++ "boom") } ∧
    (recover_inflight_tasks c8State "boom" 7).2.tasks.get ⟨1, by decide⟩ = c8Done ∧
    (recover_inflight_tasks c8State "boom" 7).1 =
      c8State.tasks.countP (fun t => decide (t.status = "running")) :=
  ⟨rfl, by decide,
    ((C8_recover_inflight c8State "boom" 7).2.2.1 0 (by decide) (by decide)).1 rfl,
    ((C8_recover_inflight c8State "boom" 7).2.2.1 1 (by decide) (by decide)).2 (by decide),
    (C8_recover_inflight c8State "boom" 7).2.1⟩

/-- C6: after set_task_retry at time t with m at least one minute, the task is
deferred at every instant strictly before t plus m minutes and not deferred at
or after it; while deferred it is never the task next_queued_task returns and,
when present in the state, it is listed by queued_but_blocked. -/
theorem C6_set_task_retry_deferral :
    ∀ (toIso : Int → String) (fromIso : String → Option Int) (task : Task) (m : Int)
      (reason : String) (t : Int),
      1 ≤ m →
      pyStrip (toIso (t + 60 * m)) ≠ "" →
      fromIso (pyStrip (toIso (t + 60 * m))) = some (t + 60 * m) →
      (∀ u, u < t + 60 * m →
        is_task_deferred fromIso u (set_task_retry toIso t task m reason) = true) ∧
      (∀ u, t + 60 * m ≤ u →
        is_task_deferred fromIso u (set_task_retry toIso t task m reason) = false) ∧
      (∀ state u, u < t + 60 * m →
        next_queued_task fromIso u state ≠ some (set_task_retry toIso t task m reason)) ∧
      (∀ state u, u < t + 60 * m →
        set_task_retry toIso t task m reason ∈ state.tasks →
        set_task_retry toIso t task m reason ∈ queued_but_blocked fromIso u state) := by
  intro toIso fromIso task m reason t hm hne hparse
  have hmax : max m 1 = m := max_eq_left hm
  have hretry : (set_task_retry toIso t task m reason).metadata.retry_at
      = some (toIso (t + 60 * m)) := by
    simp [set_task_retry, hmax]
  have hdef : ∀ u, is_task_deferred fromIso u (set_task_retry toIso t task m reason)
      = decide (u < t + 60 * m) := by
    intro u
    unfold is_task_deferred parse_iso_datetime
    rw [hretry]
    simp only [Option.getD_some]
    rw [if_neg hne, hparse]
  refine ⟨?_, ?_, ?_, ?_⟩
  · intro u hu
    rw [hdef]
    exact decide_eq_true hu
  · intro u hu
    rw [hdef]
    exact decide_eq_false (not_lt.mpr hu)
  · intro state u hu heq
    unfold next_queued_task at heq
    have hp := List.find?_some heq
    rw [hdef u] at hp
    simp [decide_eq_true hu] at hp
  · intro state u hu hmem
    unfold queued_but_blocked
    refine List.mem_filter.mpr ⟨hmem, ?_⟩
    rw [hdef u]
    simp [set_task_retry, decide_eq_true hu]

theorem C6_set_task_retry_deferral_witness :
    (1 : Int) ≤ 5 ∧
    pyStrip (c6Iso (0 + 60 * 5)) ≠ "" ∧
    c6FromIso (pyStrip (c6Iso (0 + 60 * 5))) = some (0 + 60 * 5) ∧
    is_task_deferred c6FromIso 299 c6Deferred = true ∧
    is_task_deferred c6FromIso 300 c6Deferred = false ∧
    next_queued_task c6FromIso 299 c6State ≠ some c6Deferred ∧
    c6Deferred ∈ queued_but_blocked c6FromIso 299 c6State :=
  have h := C6_set_task_retry_deferral c6Iso c6FromIso c6Task 5 "quota" 0
    (by decide) (by decide) (by decide)
  ⟨by decide, by decide, by decide,
    h.1 299 (by decide), h.2.1 300 (by decide), h.2.2.1 c6State 299 (by decide),
    h.2.2.2 c6State 299 (by decide) (List.mem_singleton.mpr rfl)⟩

theorem ensure_role_tasks (state : RuntimeState) (role : String) :
    (ensure_role state role).tasks = state.tasks := by
  unfold ensure_role
  split <;> rfl

theorem enqueue_task_tasks (state : RuntimeState) (role title description : String)
    (md : TaskMeta) (now : Int) :
    (enqueue_task state role title description md now).2.tasks
      = state.tasks ++ [(enqueue_task state role title description md now).1] := by
  unfold enqueue_task
  simp [ensure_role_tasks]

theorem debate_position_enqueue_tasks (debate_id title topic : String) (now : Int)
    (role : String) (st : RuntimeState) :
    (debate_position_enqueue debate_id title topic now role st).2.tasks
      = st.tasks ++ [(debate_position_enqueue debate_id title topic now role st).1] :=
  enqueue_task_tasks st role _ _ _ now

theorem debate_moderator_enqueue_tasks (debate_id title topic moderator : String) (now : Int)
    (pids : List String) (st : RuntimeState) :
    (debate_moderator_enqueue debate_id title topic moderator now pids st).2.tasks
      = st.tasks ++ [(debate_moderator_enqueue debate_id title topic moderator now pids st).1] :=
  enqueue_task_tasks st moderator _ _ _ now

theorem pipeline_stage_enqueue_tasks (stageTemplate : String → String)
    (pipeline_id title brief : String) (total : Nat) (now : Int) (role : String) (index : Nat)
    (depends_on : List String) (st : RuntimeState) :
    (pipeline_stage_enqueue stageTemplate pipeline_id title brief total now role index
      depends_on st).2.tasks
      = st.tasks ++ [(pipeline_stage_enqueue stageTemplate pipeline_id title brief total now
          role index depends_on st).1] :=
  enqueue_task_tasks st role _ _ _ now

theorem debate_loop_spec (debate_id title topic : String) (now : Int) :
    ∀ (roles ids : List String) (st : RuntimeState),
      ∃ new : List Task,
        (debate_participant_loop debate_id title topic now roles ids st).2.tasks
          = st.tasks ++ new ∧
        (debate_participant_loop debate_id title topic now roles ids st).1
          = ids ++ new.map (fun t2 => t2.id) ∧
        new.length = roles.length ∧
        (∀ t2 ∈ new, t2.metadata.depends_on_task_ids = some []) := by
  intro roles
  induction roles with
  | nil =>
    intro ids st
    exact ⟨[], by simp [debate_participant_loop], by simp [debate_participant_loop], rfl,
      by simp⟩
  | cons role rest ih =>
    intro ids st
    obtain ⟨new2, h1, h2, h3, h4⟩ :=
      ih (ids ++ [(debate_position_enqueue debate_id title topic now role st).1.id])
        (debate_position_enqueue debate_id title topic now role st).2
    refine ⟨(debate_position_enqueue debate_id title topic now role st).1 :: new2,
      ?_, ?_, ?_, ?_⟩
    · show (debate_participant_loop debate_id title topic now rest
          (ids ++ [(debate_position_enqueue debate_id title topic now role st).1.id])
          (debate_position_enqueue debate_id title topic now role st).2).2.tasks = _
      rw [h1, debate_position_enqueue_tasks]
      simp
    · show (debate_participant_loop debate_id title topic now rest
          (ids ++ [(debate_position_enqueue debate_id title topic now role st).1.id])
          (debate_position_enqueue debate_id title topic now role st).2).1 = _
      rw [h2]
      simp
    · simp [h3]
    · intro t2 ht2
      rcases List.mem_cons.mp ht2 with h | h
      · rw [h]
        rfl
      · exact h4 t2 h

/-- C7: create_debate appends exactly R+1 tasks for R participant roles: R
dependency-free position tasks, then one moderator task whose dependency list
is exactly the participant task ids in creation order; the debate record lists
those ids in the same order. -/
theorem C7_create_debate_fanin :
    ∀ (state : RuntimeState) (title topic : String) (roles : List String) (moderator : String)
      (now : Int),
      ∃ (parts : List Task) (mt : Task),
        (create_debate state title topic roles moderator now).2.tasks
          = state.tasks ++ parts ++ [mt] ∧
        parts.length = roles.length ∧
        (∀ t2 ∈ parts, t2.metadata.depends_on_task_ids = some []) ∧
        mt.metadata.depends_on_task_ids = some (parts.map fun t2 => t2.id) ∧
        (create_debate state title topic roles moderator now).1.participant_task_ids
          = parts.map (fun t2 => t2.id) ∧
        (create_debate state title topic roles moderator now).1.moderator_task_id = mt.id ∧
        (create_debate state title topic roles moderator now).1.task_ids
          = parts.map (fun t2 => t2.id) ++ [mt.id] := by
  intro state title topic roles moderator now
  obtain ⟨parts, h1, h2, h3, h4⟩ :=
    debate_loop_spec (next_debate_id state) title topic now roles [] state
  refine ⟨parts,
    (debate_moderator_enqueue (next_debate_id state) title topic moderator now
      (debate_participant_loop (next_debate_id state) title topic now roles [] state).1
      (debate_participant_loop (next_debate_id state) title topic now roles [] state).2).1,
    ?_, h3, h4, ?_, ?_, rfl, ?_⟩
  · show (debate_moderator_enqueue (next_debate_id state) title topic moderator now
        (debate_participant_loop (next_debate_id state) title topic now roles [] state).1
        (debate_participant_loop (next_debate_id state) title topic now roles [] state).2).2.tasks
      = _
    rw [debate_moderator_enqueue_tasks, h1]
  · show some (debate_participant_loop (next_debate_id state) title topic now
        roles [] state).1 = _
    rw [h2]
    simp
  · show (debate_participant_loop (next_debate_id state) title topic now roles [] state).1 = _
    rw [h2]
    simp
  · show (debate_participant_loop (next_debate_id state) title topic now roles [] state).1
        ++ _ = _
    rw [h2]
    simp

theorem pipeline_loop_spec (stageTemplate : String → String) (pipeline_id title brief : String)
    (total : Nat) (now : Int) :
    ∀ (roles : List String) (index : Nat) (depends_on acc : List String) (st : RuntimeState),
      ∃ new : List Task,
        (pipeline_stage_loop stageTemplate pipeline_id title brief total now roles index
          depends_on acc st).2.tasks = st.tasks ++ new ∧
        (pipeline_stage_loop stageTemplate pipeline_id title brief total now roles index
          depends_on acc st).1 = acc ++ new.map (fun t2 => t2.id) ∧
        new.length = roles.length ∧
        dep_chain depends_on new := by
  intro roles
  induction roles with
  | nil =>
    intro index depends_on acc st
    exact ⟨[], by simp [pipeline_stage_loop], by simp [pipeline_stage_loop], rfl, trivial⟩
  | cons role rest ih =>
    intro index depends_on acc st
    obtain ⟨new2, h1, h2, h3, h4⟩ :=
      ih (index + 1)
        [(pipeline_stage_enqueue stageTemplate pipeline_id title brief total now role index
          depends_on st).1.id]
        (acc ++ [(pipeline_stage_enqueue stageTemplate pipeline_id title brief total now role
          index depends_on st).1.id])
        (pipeline_stage_enqueue stageTemplate pipeline_id title brief total now role index
          depends_on st).2
    refine ⟨(pipeline_stage_enqueue stageTemplate pipeline_id title brief total now role index
      depends_on st).1 :: new2, ?_, ?_, ?_, rfl, h4⟩
    · show (pipeline_stage_loop stageTemplate pipeline_id title brief total now rest (index + 1)
          [(pipeline_stage_enqueue stageTemplate pipeline_id title brief total now role index
            depends_on st).1.id]
          (acc ++ [(pipeline_stage_enqueue stageTemplate pipeline_id title brief total now role
            index depends_on st).1.id])
          (pipeline_stage_enqueue stageTemplate pipeline_id title brief total now role index
            depends_on st).2).2.tasks = _
      rw [h1, pipeline_stage_enqueue_tasks]
      simp
    · show (pipeline_stage_loop stageTemplate pipeline_id title brief total now rest (index + 1)
          [(pipeline_stage_enqueue stageTemplate pipeline_id title brief total now role index
            depends_on st).1.id]
          (acc ++ [(pipeline_stage_enqueue stageTemplate pipeline_id title brief total now role
            index depends_on st).1.id])
          (pipeline_stage_enqueue stageTemplate pipeline_id title brief total now role index
            depends_on st).2).1 = _
      rw [h2]
      simp
    · simp [h3]

/-- C2: create_pipeline appends one task per role forming a strict linear
chain, stage one with an empty depends_on_task_ids and every later stage
depending exactly on the singleton id of its predecessor; and next_queued_task
never returns a task while any of its dependencies resolves to a task whose
status is not done (or to no task at all). -/
theorem C2_pipeline_dependency_chain :
    (∀ (stageTemplate : String → String) (state : RuntimeState) (title brief : String)
      (roles : List String) (now : Int),
      ∃ new : List Task,
        (create_pipeline stageTemplate state title brief roles now).2.tasks
          = state.tasks ++ new ∧
        new.length = roles.length ∧
        (create_pipeline stageTemplate state title brief roles now).1.task_ids
          = new.map (fun t2 => t2.id) ∧
        dep_chain [] new) ∧
    (∀ (fromIso : String → Option Int) (now : Int) (state : RuntimeState) (t : Task),
      next_queued_task fromIso now state = some t →
      ∀ dep ∈ task_dependencies t, ∃ dt, get_task state dep = some dt ∧ dt.status = "done") := by
  constructor
  · intro stageTemplate state title brief roles now
    obtain ⟨new, h1, h2, h3, h4⟩ :=
      pipeline_loop_spec stageTemplate (next_pipeline_id state) title brief roles.length now
        roles 1 [] [] state
    refine ⟨new, ?_, h3, ?_, h4⟩
    · show (pipeline_stage_loop stageTemplate (next_pipeline_id state) title brief roles.length
          now roles 1 [] [] state).2.tasks = _
      exact h1
    · show (pipeline_stage_loop stageTemplate (next_pipeline_id state) title brief roles.length
          now roles 1 [] [] state).1 = _
      rw [h2]
      simp
  · intro fromIso now state t hfind dep hdep
    have hp := List.find?_some hfind
    simp only [Bool.and_eq_true] at hp
    have hready := hp.2
    unfold is_task_ready at hready
    rw [List.all_eq_true] at hready
    have hd := hready dep hdep
    cases hget : get_task state dep with
    | none => rw [hget] at hd; simp at hd
    | some dt =>
      rw [hget] at hd
      simp only [beq_iff_eq] at hd
      exact ⟨dt, rfl, hd⟩

theorem C2_pipeline_dependency_chain_witness :
    next_queued_task (fun _ => none) 0 c2State = some c2CoderTask ∧
    (∀ dep ∈ task_dependencies c2CoderTask,
      ∃ dt, get_task c2State dep = some dt ∧ dt.status = "done") :=
  ⟨rfl, C2_pipeline_dependency_chain.2 (fun _ => none) 0 c2State c2CoderTask rfl⟩

theorem jGet_eq_none_of_not_hasKey (c : Ctr) (k : String) (h : jHasKeyB c k = false) :
    jGet c k = none := by
  unfold jGet
  have hfil : c.filter (fun kv => kv.1 == k) = [] := by
    rw [List.filter_eq_nil_iff]
    intro kv hkv
    have := List.any_eq_false.mp (by unfold jHasKeyB at h; exact h) kv hkv
    simpa using this
  rw [hfil]
  rfl

theorem append_ne_nil_of_left {α : Type} (a b : List α) (h : a ≠ []) : a ++ b ≠ [] :=
  fun hc => h (List.append_eq_nil.mp hc).1

theorem append_ne_nil_of_right {α : Type} (a b : List α) (h : b ≠ []) : a ++ b ≠ [] :=
  fun hc => h (List.append_eq_nil.mp hc).2

theorem validate_unfold (role : String) (task : Task) (c : Ctr) (hc : c.isEmpty = false) :
    validate_output_contract role task (some c)
      = missing_field_errors c ++ task_id_errors task c ++ owner_errors role c
        ++ status_errors c ++ list_field_errors c "artifacts"
        ++ list_field_errors c "acceptance_criteria" ++ list_field_errors c "handoff_to"
        ++ next_field_errors c ++ required_path_errors role c := by
  simp [validate_output_contract, hc]

theorem missing_field_errors_ne_nil (c : Ctr) (f : String)
    (hf : f ∈ OUTPUT_CONTRACT_REQUIRED_FIELDS) (hkey : jHasKeyB c f = false) :
    missing_field_errors c ≠ [] := by
  intro hnil
  unfold missing_field_errors at hnil
  rw [List.map_eq_nil_iff] at hnil
  have : f ∈ OUTPUT_CONTRACT_REQUIRED_FIELDS.filter (fun g => !(jHasKeyB c g)) :=
    List.mem_filter.mpr ⟨hf, by simp [hkey]⟩
  rw [hnil] at this
  cases this

theorem list_field_errors_ne_nil (c : Ctr) (k : String) (hk : jHasKeyB c k = false) :
    list_field_errors c k ≠ [] := by
  unfold list_field_errors
  rw [jGet_eq_none_of_not_hasKey c k hk]
  simp

theorem next_field_errors_ne_nil (c : Ctr) (hk : jHasKeyB c "next_role_action_items" = false) :
    next_field_errors c ≠ [] := by
  unfold next_field_errors
  rw [jGet_eq_none_of_not_hasKey c _ hk]
  simp

/-- C4 counterexample: for the qa role, a contract carrying every checked
field except status, all valid, has no status key and validates with an empty
violation list, so a contract missing the status field can validate cleanly. -/
theorem C4_missing_status_counterexample :
    jHasKeyB c4Contract "status" = false ∧
    validate_output_contract "qa" c4Task (some c4Contract) = [] := ⟨rfl, rfl⟩

/-- C4 amended: a contract missing any of task_id, owner, acceptance_criteria,
artifacts, handoff_to or next_role_action_items draws a non-empty violation
list (a missing status instead defaults to done and draws none); and a
task_id whose string form is non-empty and differs from the task id draws the
mismatch violation naming both ids. -/
theorem C4_required_fields_amended :
    ∀ (role : String) (task : Task) (c : Ctr),
      ((jHasKeyB c "task_id" = false ∨ jHasKeyB c "owner" = false ∨
        jHasKeyB c "acceptance_criteria" = false ∨ jHasKeyB c "artifacts" = false ∨
        jHasKeyB c "handoff_to" = false ∨ jHasKeyB c "next_role_action_items" = false) →
        validate_output_contract role task (some c) ≠ []) ∧
      (∀ v, jGet c "task_id" = some v → pyStr v ≠ "" → pyStr v ≠ task.id →
        ("task_id mismatch: expected " ++ task.id ++ ", got " ++ pyStr v) ∈
          validate_output_contract role task (some c)) := by
  intro role task c
  constructor
  · intro h
    by_cases hc : c.isEmpty
    · simp [validate_output_contract, hc]
    · rw [validate_unfold role task c (by simpa using hc)]
      rcases h with h | h | h | h | h | h
      · exact append_ne_nil_of_left _ _ (append_ne_nil_of_left _ _ (append_ne_nil_of_left _ _
          (append_ne_nil_of_left _ _ (append_ne_nil_of_left _ _ (append_ne_nil_of_left _ _
          (append_ne_nil_of_left _ _ (append_ne_nil_of_left _ _
          (missing_field_errors_ne_nil c _ (by decide) h))))))))
      · exact append_ne_nil_of_left _ _ (append_ne_nil_of_left _ _ (append_ne_nil_of_left _ _
          (append_ne_nil_of_left _ _ (append_ne_nil_of_left _ _ (append_ne_nil_of_left _ _
          (append_ne_nil_of_left _ _ (append_ne_nil_of_left _ _
          (missing_field_errors_ne_nil c _ (by decide) h))))))))
      · exact append_ne_nil_of_left _ _ (append_ne_nil_of_left _ _ (append_ne_nil_of_left _ _
          (append_ne_nil_of_left _ _ (append_ne_nil_of_left _ _ (append_ne_nil_of_left _ _
          (append_ne_nil_of_left _ _ (append_ne_nil_of_left _ _
          (missing_field_errors_ne_nil c _ (by decide) h))))))))
      · exact append_ne_nil_of_left _ _ (append_ne_nil_of_left _ _ (append_ne_nil_of_left _ _
          (append_ne_nil_of_left _ _ (append_ne_nil_of_left _ _ (append_ne_nil_of_left _ _
          (append_ne_nil_of_left _ _ (append_ne_nil_of_left _ _
          (missing_field_errors_ne_nil c _ (by decide) h))))))))
      · exact append_ne_nil_of_left _ _ (append_ne_nil_of_left _ _
          (append_ne_nil_of_right _ _ (list_field_errors_ne_nil c _ h)))
      · exact append_ne_nil_of_left _ _
          (append_ne_nil_of_right _ _ (next_field_errors_ne_nil c h))
  · intro v hv hne hnid
    by_cases hc : c.isEmpty
    · exfalso
      have hcn : c = [] := by
        cases c with
        | nil => rfl
        | cons kv rest => simp [List.isEmpty] at hc
      rw [hcn] at hv
      simp [jGet] at hv
    · rw [validate_unfold role task c (by simpa using hc)]
      have htid : task_id_errors task c
          = ["task_id mismatch: expected " ++ task.id ++ ", got " ++ pyStr v] := by
        unfold task_id_errors jGetD
        rw [hv]
        simp [hne, hnid]
      refine List.mem_append.mpr (Or.inl ?_)
      refine List.mem_append.mpr (Or.inl ?_)
      refine List.mem_append.mpr (Or.inl ?_)
      refine List.mem_append.mpr (Or.inl ?_)
      refine List.mem_append.mpr (Or.inl ?_)
      refine List.mem_append.mpr (Or.inl ?_)
      refine List.mem_append.mpr (Or.inl ?_)
      refine List.mem_append.mpr (Or.inr ?_)
      rw [htid]
      exact List.mem_singleton.mpr rfl

theorem C4_required_fields_amended_witness :
    jHasKeyB c4BadContract "task_id" = false ∧
    validate_output_contract "qa" c4Task (some c4BadContract) ≠ [] ∧
    jGet c4MismatchContract "task_id" = some (JVal.str "TASK-9999") ∧
    ("task_id mismatch: expected " ++ c4Task.id ++ ", got " ++ pyStr (JVal.str "TASK-9999")) ∈
      validate_output_contract "qa" c4Task (some c4MismatchContract) :=
  ⟨rfl,
   (C4_required_fields_amended "qa" c4Task c4BadContract).1 (Or.inl rfl),
   rfl,
   (C4_required_fields_amended "qa" c4Task c4MismatchContract).2 (JVal.str "TASK-9999") rfl
     (by decide) (by decide)⟩

/-- C5 counterexample: this text has no json fence and its last balanced
brace substring parses to the object a = 1, which the claim as stated would
have extract_output_contract return; but the code slices from the last opening
brace to the last closing brace, which here cross, so it returns none. -/
theorem C5_balanced_fallback_counterexample :
    hasJsonFenceMarker "\x7b\"a\": 1\x7d \x7b" = false ∧
    lastBalancedBraceSub "\x7b\"a\": 1\x7d \x7b" = some ("\x7b\"a\": 1\x7d".data) ∧
    jsonParse (String.mk ((lastBalancedBraceSub "\x7b\"a\": 1\x7d \x7b").getD []))
      = some (JVal.obj [("a", JVal.num 1)]) ∧
    extract_output_contract "\x7b\"a\": 1\x7d \x7b" = none := by
  refine ⟨rfl, by decide, rfl, rfl⟩

/-- C5 amended: with no json fence marker in the text, extract_output_contract
is exactly the fallback that parses the substring from the last opening brace
through the last closing brace (none when they are absent or cross, when the
parse fails, or when it is not an object); when the last fenced json block
parses to a non-empty object, that object is returned; and a text ending in a
well-formed trailing JSON object still extracts it through the fallback. -/
theorem C5_extract_contract_amended :
    (∀ text : String, hasJsonFenceMarker text = false →
      extract_output_contract text = extract_contract_fallback text) ∧
    (∀ (text : String) (fields : Ctr),
      extract_json_from_fenced_block text = some fields → fields ≠ [] →
      extract_output_contract text = some fields) ∧
    extract_output_contract "hello \x7b\"a\": 1\x7d" = some [("a", JVal.num 1)] := by
  refine ⟨?_, ?_, rfl⟩
  · intro text hmark
    have hfence : extract_json_from_fenced_block text = none := by
      unfold hasJsonFenceMarker at hmark
      cases hr : rfindCL (text.data.map pyToLower) ("```json".data.map pyToLower) with
      | some i => rw [hr] at hmark; simp at hmark
      | none =>
        simp only [extract_json_from_fenced_block]
        rw [hr]
    unfold extract_output_contract
    rw [hfence]
  · intro text fields hf hne
    have hemp : fields.isEmpty = false := by
      cases fields with
      | nil => exact absurd rfl hne
      | cons kv rest => rfl
    unfold extract_output_contract
    rw [hf]
    show (if fields.isEmpty then extract_contract_fallback text else some fields) = some fields
    rw [hemp]
    rfl

theorem C5_extract_contract_amended_witness :
    hasJsonFenceMarker "no fence here" = false ∧
    extract_output_contract "no fence here" = extract_contract_fallback "no fence here" ∧
    extract_json_from_fenced_block "```json\n\x7b\"a\": 1\x7d\n```" = some [("a", JVal.num 1)] ∧
    extract_output_contract "```json\n\x7b\"a\": 1\x7d\n```" = some [("a", JVal.num 1)] :=
  ⟨rfl, C5_extract_contract_amended.1 "no fence here" rfl,
   rfl, C5_extract_contract_amended.2.1 "```json\n\x7b\"a\": 1\x7d\n```" [("a", JVal.num 1)]
     rfl (List.cons_ne_nil _ _)⟩

theorem runFA_agree (runner : AgentRunner) (role : String) (task : Task) (midx : Nat) :
    ∀ (n fa : Nat) (s1 s2 : EntryLoopState),
      s1.result = s2.result → s1.model_contract_errors = s2.model_contract_errors →
      s1.success = s2.success →
      (run_format_attempts runner role task midx n fa s1).result
          = (run_format_attempts runner role task midx n fa s2).result ∧
        (run_format_attempts runner role task midx n fa s1).model_contract_errors
          = (run_format_attempts runner role task midx n fa s2).model_contract_errors ∧
        (run_format_attempts runner role task midx n fa s1).success
          = (run_format_attempts runner role task midx n fa s2).success := by
  intro n
  induction n with
  | zero => intro fa s1 s2 h1 h2 h3; exact ⟨h1, h2, h3⟩
  | succ m ih =>
    intro fa s1 s2 h1 h2 h3
    simp only [run_format_attempts]
    split_ifs with hrc herr
    · exact ⟨rfl, h2, rfl⟩
    · exact ⟨rfl, rfl, rfl⟩
    · exact ih (fa + 1) _ _ rfl rfl rfl

theorem runFA_agree1 (runner : AgentRunner) (role : String) (task : Task) (midx : Nat)
    (n fa : Nat) (s1 s2 : EntryLoopState) (hn : 1 ≤ n)
    (he : s1.model_contract_errors = s2.model_contract_errors) :
    (run_format_attempts runner role task midx n fa s1).result
        = (run_format_attempts runner role task midx n fa s2).result ∧
      (run_format_attempts runner role task midx n fa s1).model_contract_errors
        = (run_format_attempts runner role task midx n fa s2).model_contract_errors ∧
      (run_format_attempts runner role task midx n fa s1).success
        = (run_format_attempts runner role task midx n fa s2).success := by
  cases n with
  | zero => omega
  | succ m =>
    simp only [run_format_attempts]
    split_ifs with hrc herr
    · exact ⟨rfl, he, rfl⟩
    · exact ⟨rfl, rfl, rfl⟩
    · exact runFA_agree runner role task midx m (fa + 1) _ _ rfl rfl rfl

theorem runFA_fail_spec (runner : AgentRunner) (role : String) (task : Task) (midx : Nat) :
    ∀ (n fa : Nat) (s : EntryLoopState), 1 ≤ n →
      ∃ r, (run_format_attempts runner role task midx n fa s).result = some r ∧
        ((run_format_attempts runner role task midx n fa s).success = false →
          ¬r.return_code = 0 ∨
            (run_format_attempts runner role task midx n fa s).model_contract_errors ≠ []) := by
  intro n
  induction n with
  | zero => intro fa s h; omega
  | succ m ih =>
    intro fa s _
    simp only [run_format_attempts]
    split_ifs with hrc herr
    · exact ⟨runner midx fa, rfl, fun _ => Or.inl hrc⟩
    · exact ⟨runner midx fa, rfl, fun hs => absurd hs (by simp)⟩
    · cases m with
      | zero =>
        simp only [run_format_attempts]
        refine ⟨runner midx fa, rfl, fun _ => Or.inr ?_⟩
        simpa using herr
      | succ k => exact ih (fa + 1) _ (by omega)

theorem chain_entry_run_agree (runner : AgentRunner) (_policy : QuotaPolicy) (mfr : Nat)
    (role : String) (task : Task) (midx : Nat) (entry : ModelEntry) (s : ChainLoopState) :
    (chain_entry_run runner mfr role task midx entry s).result
        = (entry_final runner role task mfr midx).result ∧
      (chain_entry_run runner mfr role task midx entry s).model_contract_errors
        = (entry_final runner role task mfr midx).model_contract_errors ∧
      (chain_entry_run runner mfr role task midx entry s).success
        = (entry_final runner role task mfr midx).success := by
  unfold chain_entry_run entry_final
  exact runFA_agree1 runner role task midx (mfr + 1) 1 _ entry_init (by omega) rfl

theorem chain_entry_step_fail (runner : AgentRunner) (policy : QuotaPolicy) (mfr : Nat)
    (role : String) (task : Task) (midx : Nat) (entry : ModelEntry) (s : ChainLoopState)
    (h : (entry_final runner role task mfr midx).success = false) :
    (chain_entry_step runner policy mfr role task midx entry s).success = s.success ∧
    (chain_entry_step runner policy mfr role task midx entry s).attempted_models
      = s.attempted_models ++ [norm_chain_entry entry] ∧
    (chain_entry_step runner policy mfr role task midx entry s).exhausted_models
      = s.exhausted_models ++
        (if entry_quota_failed runner policy role task mfr midx then [norm_chain_entry entry]
         else []) ∧
    (chain_entry_step runner policy mfr role task midx entry s).role_state = s.role_state ∧
    (chain_entry_step runner policy mfr role task midx entry s).result
      = (entry_final runner role task mfr midx).result ∧
    (chain_entry_step runner policy mfr role task midx entry s).contract_errors
      = (entry_final runner role task mfr midx).model_contract_errors := by
  obtain ⟨hr, he2, hs⟩ := chain_entry_run_agree runner policy mfr role task midx entry s
  have hsf : (chain_entry_run runner mfr role task midx entry s).success = false := by
    rw [hs]
    exact h
  have hnot : ¬((chain_entry_run runner mfr role task midx entry s).success = true) := by
    rw [hsf]
    exact Bool.false_ne_true
  have hfl : quota_flag policy (chain_entry_run runner mfr role task midx entry s)
      = entry_quota_failed runner policy role task mfr midx := by
    unfold entry_quota_failed quota_flag
    rw [hr]
  simp only [chain_entry_step, if_neg hnot]
  rw [hfl]
  by_cases hq : entry_quota_failed runner policy role task mfr midx = true
  · rw [if_pos hq, if_pos hq]
    exact ⟨rfl, rfl, rfl, rfl, hr, he2⟩
  · rw [if_neg hq, if_neg hq]
    refine ⟨rfl, rfl, ?_, rfl, hr, he2⟩
    simp [chain_entry_input]

theorem exhausted_of_all (runner : AgentRunner) (policy : QuotaPolicy) (role : String)
    (task : Task) (mfr : Nat) :
    ∀ (entries : List ModelEntry) (midx : Nat),
      (∀ j, j < entries.length →
        entry_quota_failed runner policy role task mfr (midx + j) = true) →
      exhausted_of runner policy role task mfr midx entries
        = entries.map norm_chain_entry := by
  intro entries
  induction entries with
  | nil => intro midx _; rfl
  | cons e rest ih =>
    intro midx h
    simp only [exhausted_of, List.map_cons]
    rw [if_pos (by simpa using h 0 (by simp))]
    rw [ih (midx + 1) (fun j hj => by
      have hx := h (j + 1) (by simpa using Nat.succ_lt_succ hj)
      rwa [show midx + (j + 1) = midx + 1 + j from by omega] at hx)]
    simp

theorem exhausted_of_length_le (runner : AgentRunner) (policy : QuotaPolicy) (role : String)
    (task : Task) (mfr : Nat) :
    ∀ (entries : List ModelEntry) (midx : Nat),
      (exhausted_of runner policy role task mfr midx entries).length ≤ entries.length := by
  intro entries
  induction entries with
  | nil => intro midx; simp [exhausted_of]
  | cons e rest ih =>
    intro midx
    simp only [exhausted_of, List.length_append, List.length_cons]
    have := ih (midx + 1)
    split_ifs <;> simp <;> omega

theorem exhausted_of_length_eq_iff (runner : AgentRunner) (policy : QuotaPolicy)
    (role : String) (task : Task) (mfr : Nat) :
    ∀ (entries : List ModelEntry) (midx : Nat),
      ((exhausted_of runner policy role task mfr midx entries).length = entries.length ↔
        ∀ j, j < entries.length →
          entry_quota_failed runner policy role task mfr (midx + j) = true) := by
  intro entries
  induction entries with
  | nil => intro midx; simp [exhausted_of]
  | cons e rest ih =>
    intro midx
    simp only [exhausted_of, List.length_append, List.length_cons]
    by_cases hq : entry_quota_failed runner policy role task mfr midx = true
    · rw [if_pos hq]
      simp only [List.length_cons, List.length_nil]
      constructor
      · intro hlen j hj
        cases j with
        | zero => simpa using hq
        | succ k =>
          have hk := (ih (midx + 1)).mp (by omega) k (by omega)
          rwa [show midx + 1 + k = midx + (k + 1) from by omega] at hk
      · intro hall
        have := (ih (midx + 1)).mpr (fun j hj => by
          have hx := hall (j + 1) (by omega)
          rwa [show midx + (j + 1) = midx + 1 + j from by omega] at hx)
        omega
    · rw [if_neg hq]
      simp only [List.length_nil]
      constructor
      · intro hlen
        exfalso
        have hle := exhausted_of_length_le runner policy role task mfr rest (midx + 1)
        omega
      · intro hall
        exact absurd (by simpa using hall 0 (by simp)) hq

theorem chain_loop_fail_spec (runner : AgentRunner) (policy : QuotaPolicy) (mfr : Nat)
    (role : String) (task : Task) :
    ∀ (entries : List ModelEntry) (midx : Nat) (s : ChainLoopState),
      s.success = false →
      (∀ j, j < entries.length →
        (entry_final runner role task mfr (midx + j)).success = false) →
      (chain_loop runner policy mfr role task midx entries s).success = false ∧
      (chain_loop runner policy mfr role task midx entries s).attempted_models
        = s.attempted_models ++ entries.map norm_chain_entry ∧
      (chain_loop runner policy mfr role task midx entries s).exhausted_models
        = s.exhausted_models ++ exhausted_of runner policy role task mfr midx entries ∧
      (chain_loop runner policy mfr role task midx entries s).role_state = s.role_state ∧
      (entries = [] → chain_loop runner policy mfr role task midx entries s = s) ∧
      (entries ≠ [] →
        (chain_loop runner policy mfr role task midx entries s).result
          = (entry_final runner role task mfr (midx + entries.length - 1)).result ∧
        (chain_loop runner policy mfr role task midx entries s).contract_errors
          = (entry_final runner role task mfr
              (midx + entries.length - 1)).model_contract_errors) := by
  intro entries
  induction entries with
  | nil =>
    intro midx s hs _
    refine ⟨hs, by simp [chain_loop], by simp [chain_loop, exhausted_of], rfl, fun _ => rfl,
      fun hcon => absurd rfl hcon⟩
  | cons entry rest ih =>
    intro midx s hs hfail
    obtain ⟨f1, f2, f3, f4, f5, f6⟩ := chain_entry_step_fail runner policy mfr role task midx
      entry s (by simpa using hfail 0 (by simp))
    have hs2 : (chain_entry_step runner policy mfr role task midx entry s).success = false := by
      rw [f1]
      exact hs
    have hnot : ¬((chain_entry_step runner policy mfr role task midx entry s).success
        = true) := by
      rw [hs2]
      exact Bool.false_ne_true
    have hfail2 : ∀ j, j < rest.length →
        (entry_final runner role task mfr (midx + 1 + j)).success = false := fun j hj => by
      have hx := hfail (j + 1) (by simpa using Nat.succ_lt_succ hj)
      rwa [show midx + (j + 1) = midx + 1 + j from by omega] at hx
    obtain ⟨g1, g2, g3, g4, g5, g6⟩ := ih (midx + 1)
      (chain_entry_step runner policy mfr role task midx entry s) hs2 hfail2
    simp only [chain_loop, if_neg hnot]
    refine ⟨g1, ?_, ?_, ?_, ?_, ?_⟩
    · rw [g2, f2]
      simp
    · rw [g3, f3]
      simp [exhausted_of]
    · rw [g4, f4]
    · intro hcon
      exact absurd hcon (List.cons_ne_nil _ _)
    · intro _
      cases rest with
      | nil =>
        have hloop := g5 rfl
        rw [hloop]
        constructor
        · rw [show midx + (entry :: ([] : List ModelEntry)).length - 1 = midx from by
            simp]
          exact f5
        · rw [show midx + (entry :: ([] : List ModelEntry)).length - 1 = midx from by
            simp]
          exact f6
      | cons e2 r2 =>
        obtain ⟨p1, p2⟩ := g6 (List.cons_ne_nil _ _)
        have hix : midx + 1 + (e2 :: r2).length - 1
            = midx + (entry :: e2 :: r2).length - 1 := by
          simp only [List.length_cons]
          omega
        rw [hix] at p1 p2
        exact ⟨p1, p2⟩

/-- C1: when the model-chain loop of a dispatch finishes with no successful
run over a non-empty chain, the task is re-queued deferred if and only if the
deferral policy is enabled and every attempted entry ended in a non-zero exit
whose stderr matched a quota marker; deferral clears started_at and
finished_at, stamps metadata.retry_at at now plus the configured defer
minutes, and records the attempted and quota-exhausted model lists; otherwise
the task fails with the joined contract violations, else the last stderr,
else a generic message; and the timed-out and command-not-found stderr texts
match no default quota marker. -/
theorem C1_model_chain_quota_deferral
    (runner : AgentRunner) (policy : QuotaPolicy) (toIso : Int → String) (mfr : Nat)
    (chain : List ModelEntry) (task : Task) (rs0 : RoleState) (now : Int)
    (hchain : chain ≠ [])
    (hnosucc : ∀ i, 1 ≤ i → i ≤ chain.length →
      (entry_final runner task.role (dispatch_running_task task now) mfr i).success = false)
    (hdm : 1 ≤ policy.defer_minutes_on_exhausted_models) :
    ((dispatch_task_object runner policy toIso mfr chain task rs0 now).task.status = "queued"
      ↔ (policy.defer_on_exhausted_models = true ∧ ∀ i, 1 ≤ i → i ≤ chain.length →
          entry_quota_failed runner policy task.role (dispatch_running_task task now) mfr i
            = true)) ∧
    ((policy.defer_on_exhausted_models = true ∧ (∀ i, 1 ≤ i → i ≤ chain.length →
        entry_quota_failed runner policy task.role (dispatch_running_task task now) mfr i
          = true)) →
      (dispatch_task_object runner policy toIso mfr chain task rs0 now).task.status = "queued"
      ∧ (dispatch_task_object runner policy toIso mfr chain task rs0 now).task.started_at
          = none
      ∧ (dispatch_task_object runner policy toIso mfr chain task rs0 now).task.finished_at
          = none
      ∧ (dispatch_task_object runner policy toIso mfr chain task rs0 now).task.metadata.retry_at
          = some (toIso (now + 60 * policy.defer_minutes_on_exhausted_models))
      ∧ (dispatch_task_object runner policy toIso mfr chain task rs0
          now).task.metadata.quota_exhausted_models = some (chain.map norm_chain_entry)
      ∧ (dispatch_task_object runner policy toIso mfr chain task rs0
          now).task.metadata.attempted_models = some (chain.map norm_chain_entry)) ∧
    (¬(policy.defer_on_exhausted_models = true ∧ (∀ i, 1 ≤ i → i ≤ chain.length →
        entry_quota_failed runner policy task.role (dispatch_running_task task now) mfr i
          = true)) →
      (dispatch_task_object runner policy toIso mfr chain task rs0 now).task.status = "failed"
      ∧ (dispatch_task_object runner policy toIso mfr chain task rs0 now).task.error
          = some (dispatch_failure_error runner task.role (dispatch_running_task task now) mfr
              chain.length)
      ∧ (dispatch_task_object runner policy toIso mfr chain task rs0
          now).task.metadata.attempted_models = some (chain.map norm_chain_entry)) ∧
    is_quota_error default_quota_policy "codex run timed out after 180 seconds" = false ∧
    is_quota_error default_quota_policy "codex command not found" = false := by
  have hlen : 0 < chain.length := List.length_pos.mpr hchain
  have hfail : ∀ j, j < chain.length →
      (entry_final runner task.role (dispatch_running_task task now) mfr (1 + j)).success
        = false := fun j hj => hnosucc (1 + j) (by omega) (by omega)
  obtain ⟨l1, l2, l3, l4, l5, l6⟩ := chain_loop_fail_spec runner policy mfr task.role
    (dispatch_running_task task now) chain 1 (chain_loop_init { rs0 with state := "busy" })
    rfl hfail
  obtain ⟨p1, p2⟩ := l6 hchain
  have hix : 1 + chain.length - 1 = chain.length := by omega
  rw [hix] at p1 p2
  have hatt : (dispatch_chain_result runner policy mfr chain task rs0 now).attempted_models
      = chain.map norm_chain_entry := by
    unfold dispatch_chain_result
    rw [l2]
    simp [chain_loop_init]
  have hexh : (dispatch_chain_result runner policy mfr chain task rs0 now).exhausted_models
      = exhausted_of runner policy task.role (dispatch_running_task task now) mfr 1 chain := by
    unfold dispatch_chain_result
    rw [l3]
    simp [chain_loop_init]
  have herr : (dispatch_chain_result runner policy mfr chain task rs0 now).contract_errors
      = (entry_final runner task.role (dispatch_running_task task now) mfr
          chain.length).model_contract_errors := by
    unfold dispatch_chain_result
    exact p2
  have hlast : (entry_final runner task.role (dispatch_running_task task now) mfr
      chain.length).success = false := hnosucc chain.length (by omega) (le_refl _)
  obtain ⟨r, hrres, himp⟩ := runFA_fail_spec runner task.role (dispatch_running_task task now)
    chain.length (mfr + 1) 1 entry_init (by omega)
  have hefres : (entry_final runner task.role (dispatch_running_task task now) mfr
      chain.length).result = some r := hrres
  have hres : (dispatch_chain_result runner policy mfr chain task rs0 now).result
      = some r := by
    unfold dispatch_chain_result
    rw [p1]
    exact hefres
  have hD : dispatch_task_object runner policy toIso mfr chain task rs0 now
      = dispatch_finish policy toIso (dispatch_running_task task now)
          (dispatch_chain_result runner policy mfr chain task rs0 now) r now := by
    simp only [dispatch_task_object]
    rw [hres]
  have hdisj : ¬r.return_code = 0 ∨
      (entry_final runner task.role (dispatch_running_task task now) mfr
        chain.length).model_contract_errors ≠ [] := himp hlast
  have hdone : (decide (r.return_code = 0)
      && (dispatch_chain_result runner policy mfr chain task rs0
        now).contract_errors.isEmpty) = false := by
    rcases hdisj with h0 | h0
    · simp [h0]
    · rw [herr]
      have hie : (entry_final runner task.role (dispatch_running_task task now) mfr
          chain.length).model_contract_errors.isEmpty = false := by
        cases hl : (entry_final runner task.role (dispatch_running_task task now) mfr
            chain.length).model_contract_errors with
        | nil => exact absurd hl h0
        | cons a l => rfl
      rw [hie]
      simp
  have hnotdone : ¬((decide (r.return_code = 0)
      && (dispatch_chain_result runner policy mfr chain task rs0
        now).contract_errors.isEmpty) = true) := by
    rw [hdone]
    exact Bool.false_ne_true
  have hiffQ : ((dispatch_chain_result runner policy mfr chain task rs0
        now).exhausted_models.length
      = (dispatch_chain_result runner policy mfr chain task rs0 now).attempted_models.length)
      ↔ (∀ i, 1 ≤ i → i ≤ chain.length →
          entry_quota_failed runner policy task.role (dispatch_running_task task now) mfr i
            = true) := by
    rw [hexh, hatt, List.length_map]
    rw [exhausted_of_length_eq_iff runner policy task.role (dispatch_running_task task now)
      mfr chain 1]
    constructor
    · intro hall i h1 h2
      have hx := hall (i - 1) (by omega)
      rwa [show 1 + (i - 1) = i from by omega] at hx
    · intro hall j hj
      exact hall (1 + j) (by omega) (by omega)
  have hmarkers : is_quota_error default_quota_policy
        "codex run timed out after 180 seconds" = false ∧
      is_quota_error default_quota_policy "codex command not found" = false := by
    constructor <;> decide
  by_cases hQ : policy.defer_on_exhausted_models = true ∧ (∀ i, 1 ≤ i → i ≤ chain.length →
      entry_quota_failed runner policy task.role (dispatch_running_task task now) mfr i = true)
  · have d1 : decide (0 < (dispatch_chain_result runner policy mfr chain task rs0
        now).attempted_models.length) = true := by
      rw [hatt, List.length_map]
      exact decide_eq_true hlen
    have d2 : decide ((dispatch_chain_result runner policy mfr chain task rs0
          now).exhausted_models.length
        = (dispatch_chain_result runner policy mfr chain task rs0
          now).attempted_models.length) = true := decide_eq_true (hiffQ.mpr hQ.2)
    have hdefercond : ((decide (0 < (dispatch_chain_result runner policy mfr chain task rs0
          now).attempted_models.length) &&
        decide ((dispatch_chain_result runner policy mfr chain task rs0
            now).exhausted_models.length
          = (dispatch_chain_result runner policy mfr chain task rs0
            now).attempted_models.length)) &&
        policy.defer_on_exhausted_models) = true := by
      rw [d1, d2, hQ.1]
      rfl
    have hexh2 : (dispatch_chain_result runner policy mfr chain task rs0
        now).exhausted_models = chain.map norm_chain_entry := by
      rw [hexh]
      exact exhausted_of_all runner policy task.role (dispatch_running_task task now) mfr
        chain 1 (fun j hj => hQ.2 (1 + j) (by omega) (by omega))
    have hTstat : (dispatch_task_object runner policy toIso mfr chain task rs0
        now).task.status = "queued" := by
      rw [hD]
      simp only [dispatch_finish, if_neg hnotdone, if_pos hdefercond]
      rfl
    refine ⟨⟨fun _ => hQ, fun _ => hTstat⟩, fun _ => ⟨hTstat, ?_, ?_, ?_, ?_, ?_⟩,
      fun hc => absurd hQ hc, hmarkers.1, hmarkers.2⟩
    · rw [hD]
      simp only [dispatch_finish, if_neg hnotdone, if_pos hdefercond]
      rfl
    · rw [hD]
      simp only [dispatch_finish, if_neg hnotdone, if_pos hdefercond]
      rfl
    · rw [hD]
      simp only [dispatch_finish, if_neg hnotdone, if_pos hdefercond]
      simp [dispatch_defer_task, set_task_retry, max_eq_left hdm]
    · rw [hD]
      simp only [dispatch_finish, if_neg hnotdone, if_pos hdefercond]
      simp only [dispatch_defer_task, set_task_retry]
      rw [hexh2]
    · rw [hD]
      simp only [dispatch_finish, if_neg hnotdone, if_pos hdefercond]
      simp only [dispatch_defer_task, set_task_retry]
      rw [hatt]
  · have hdefercond_f : ((decide (0 < (dispatch_chain_result runner policy mfr chain task rs0
          now).attempted_models.length) &&
        decide ((dispatch_chain_result runner policy mfr chain task rs0
            now).exhausted_models.length
          = (dispatch_chain_result runner policy mfr chain task rs0
            now).attempted_models.length)) &&
        policy.defer_on_exhausted_models) = false := by
      by_cases hp : policy.defer_on_exhausted_models = true
      · have hq2 : ¬(∀ i, 1 ≤ i → i ≤ chain.length →
            entry_quota_failed runner policy task.role (dispatch_running_task task now) mfr i
              = true) := fun hall => hQ ⟨hp, hall⟩
        have d2f : decide ((dispatch_chain_result runner policy mfr chain task rs0
              now).exhausted_models.length
            = (dispatch_chain_result runner policy mfr chain task rs0
              now).attempted_models.length) = false :=
          decide_eq_false (fun he => hq2 (hiffQ.mp he))
        rw [d2f]
        simp
      · have hp2 : policy.defer_on_exhausted_models = false := Bool.eq_false_iff.mpr hp
        rw [hp2]
        simp
    have hnotdefer : ¬(((decide (0 < (dispatch_chain_result runner policy mfr chain task rs0
          now).attempted_models.length) &&
        decide ((dispatch_chain_result runner policy mfr chain task rs0
            now).exhausted_models.length
          = (dispatch_chain_result runner policy mfr chain task rs0
            now).attempted_models.length)) &&
        policy.defer_on_exhausted_models) = true) := by
      rw [hdefercond_f]
      exact Bool.false_ne_true
    have hTstat : (dispatch_task_object runner policy toIso mfr chain task rs0
        now).task.status = "failed" := by
      rw [hD]
      simp only [dispatch_finish, if_neg hnotdone, if_neg hnotdefer]
      rfl
    refine ⟨⟨fun habs => absurd (hTstat.symm.trans habs) (by decide), fun hq => absurd hq hQ⟩,
      fun hc => absurd hc hQ, fun _ => ⟨hTstat, ?_, ?_⟩, hmarkers.1, hmarkers.2⟩
    · rw [hD]
      simp only [dispatch_finish, if_neg hnotdone, if_neg hnotdefer]
      simp only [dispatch_fail_task]
      rw [herr]
      simp only [dispatch_failure_error]
      rw [hefres]
    · rw [hD]
      simp only [dispatch_finish, if_neg hnotdone, if_neg hnotdefer]
      simp only [dispatch_fail_task]
      rw [hatt]

theorem C1_model_chain_quota_deferral_witness :
    c1Chain ≠ [] ∧
    (1 : Int) ≤ default_quota_policy.defer_minutes_on_exhausted_models ∧
    (entry_final c1Runner c1Task.role (dispatch_running_task c1Task 0) 1 1).success = false ∧
    entry_quota_failed c1Runner default_quota_policy c1Task.role (dispatch_running_task c1Task 0)
      1 1 = true ∧
    (dispatch_task_object c1Runner default_quota_policy c1Iso 1 c1Chain c1Task {} 0).task.status
      = "queued" ∧
    (dispatch_task_object c1Runner default_quota_policy c1Iso 1 c1Chain c1Task {}
      0).task.metadata.retry_at
      = some (c1Iso (0 + 60 * default_quota_policy.defer_minutes_on_exhausted_models)) ∧
    (dispatch_task_object c1Runner default_quota_policy c1Iso 1 c1Chain c1Task {}
      0).task.metadata.quota_exhausted_models = some (c1Chain.map norm_chain_entry) := by
  have hchain : c1Chain ≠ [] := by simp [c1Chain]
  have hnosucc : ∀ i, 1 ≤ i → i ≤ c1Chain.length →
      (entry_final c1Runner c1Task.role (dispatch_running_task c1Task 0) 1 i).success
        = false := by
    intro i h1 h2
    have h2b : i ≤ 1 := by simpa [c1Chain] using h2
    have hi : i = 1 := by omega
    subst hi
    decide
  have hquota : ∀ i, 1 ≤ i → i ≤ c1Chain.length →
      entry_quota_failed c1Runner default_quota_policy c1Task.role
        (dispatch_running_task c1Task 0) 1 i = true := by
    intro i h1 h2
    have h2b : i ≤ 1 := by simpa [c1Chain] using h2
    have hi : i = 1 := by omega
    subst hi
    decide
  have h := C1_model_chain_quota_deferral c1Runner default_quota_policy c1Iso 1 c1Chain c1Task
    {} 0 hchain hnosucc (by decide)
  obtain ⟨hs, _, _, hra, hqe, _⟩ := h.2.1 ⟨rfl, hquota⟩
  exact ⟨hchain, by decide, hnosucc 1 (by decide) (by simp [c1Chain]),
    hquota 1 (by decide) (by simp [c1Chain]), hs, hra, hqe⟩

end Orch
